import Mathlib

/-!
# Go-Backend-Task: user service, pagination, validation and middleware

A shallow embedding of the Go sources

* `internal/service/age.go` (`CalculateAge`),
* `internal/middleware/middleware.go` (`RequestIDMiddleware`, `LoggingMiddleware`),
* `cmd/server/main.go` (the six route handlers),

together with executable models of the library calls these sources make
(`strconv.Atoi`, `time.Parse`, `time.Time.Year/YearDay/Format`, the
`go-playground/validator` tags in use, and the parts of `gofiber/fiber/v2`
the handlers touch).  Strings are Lean strings: request bodies reach the
handlers through JSON decoding, which yields valid UTF-8, so a Go rune count
is a Lean `String.length`; the byte-oriented parsers below only ever accept
ASCII digits, signs and dashes, on which bytes and characters coincide.
-/

namespace GoBackendTask

/-! ## Machine integers -/

/-- Go `int` on a 64-bit platform: the two's-complement value of `x`. -/
def wrapInt (x : Int) : Int := (x + 2 ^ 63) % 2 ^ 64 - 2 ^ 63

/-- Go conversion `int32(x)`: the low 32 bits of `x`, read as a signed number. -/
def int32 (x : Int) : Int := (x + 2 ^ 31) % 2 ^ 32 - 2 ^ 31

deriving instance DecidableEq for Except

/-! ## `time.Time`, seen through its civil date -/

/-- A `time.Time` value as the handlers observe it: the civil date it denotes
in its own location.  Every Go `time.Time` denotes a real calendar date, which
is the predicate `Time.Valid` below. -/
structure Time where
  year : Int
  month : Nat
  day : Nat
deriving DecidableEq, Repr

/-- Go `time.isLeap`: `year%4 == 0 && (year%100 != 0 || year%400 == 0)`. -/
def isLeap (year : Int) : Bool :=
  year % 4 == 0 && (year % 100 != 0 || year % 400 == 0)

/-- Go `time.daysBefore`: `daysBefore[m]` is the number of days of a non-leap
year before month `m+1` begins; the last entry is the length of the year. -/
def daysBefore : List Nat :=
  [0, 31, 31 + 28, 31 + 28 + 31, 31 + 28 + 31 + 30, 31 + 28 + 31 + 30 + 31,
   31 + 28 + 31 + 30 + 31 + 30, 31 + 28 + 31 + 30 + 31 + 30 + 31,
   31 + 28 + 31 + 30 + 31 + 30 + 31 + 31,
   31 + 28 + 31 + 30 + 31 + 30 + 31 + 31 + 30,
   31 + 28 + 31 + 30 + 31 + 30 + 31 + 31 + 30 + 31,
   31 + 28 + 31 + 30 + 31 + 30 + 31 + 31 + 30 + 31 + 30,
   31 + 28 + 31 + 30 + 31 + 30 + 31 + 31 + 30 + 31 + 30 + 31]

/-- Go `time.daysIn(m, year)`: 29 for a leap February, otherwise
`daysBefore[m] - daysBefore[m-1]`. -/
def daysIn (m : Nat) (year : Int) : Nat :=
  if m = 2 ∧ isLeap year = true then 29
  else daysBefore.getD m 0 - daysBefore.getD (m - 1) 0

/-- The civil dates a `time.Time` can denote: month 1..12 and a day that
exists in that month of that year. -/
def Time.Valid (t : Time) : Prop :=
  1 ≤ t.month ∧ t.month ≤ 12 ∧ 1 ≤ t.day ∧ t.day ≤ daysIn t.month t.year

instance (t : Time) : Decidable t.Valid := by
  unfold Time.Valid; exact inferInstance

/-- Go `Time.Year()`. -/
def Time.Year (t : Time) : Int := t.year

/-- Go `Time.YearDay()`: the day of the year, 1..365 (366 in leap years).
Computed as Go's `Date` lays a civil date out: the days before the month,
one more from March on in a leap year, then the day of the month. -/
def Time.YearDay (t : Time) : Int :=
  (daysBefore.getD (t.month - 1) 0 : Nat)
    + (if isLeap t.year = true ∧ 3 ≤ t.month then 1 else 0) + (t.day : Nat)

/-! ## `internal/service/age.go` -/

/-- Source `CalculateAge(birthDate, refDate)` of `internal/service/age.go`. -/
def CalculateAge (birthDate refDate : Time) : Int :=
  let age := refDate.Year - birthDate.Year
  let age := if refDate.YearDay < birthDate.YearDay then age - 1 else age
  age

/-- The claim's `dayOfYear`: the 1-based ordinal of a date within its own
calendar year, that is the lengths of the months before it, plus its day. -/
def dayOfYear (t : Time) : Int :=
  (((List.range (t.month - 1)).map (fun i => daysIn (i + 1) t.year)).sum : Nat)
    + (t.day : Nat)

/-- `(month, day)` of `r` is lexicographically before `(month, day)` of `b`. -/
def monthDayBefore (r b : Time) : Prop :=
  r.month < b.month ∨ (r.month = b.month ∧ r.day < b.day)

instance (r b : Time) : Decidable (monthDayBefore r b) := by
  unfold monthDayBefore; exact inferInstance

/-- The calendar-exact age: the difference of the years, one less when the
reference date falls before the birthday in `(month, day)` order. -/
def calendarAge (birthDate refDate : Time) : Int :=
  refDate.year - birthDate.year - (if monthDayBefore refDate birthDate then 1 else 0)

/-! ## `time.Parse` and `Time.Format` for the layout `2006-01-02` -/

/-- The ways `time.Parse("2006-01-02", value)` fails: a malformed element
(Go `errBad`), a month outside 1..12, text after the day, or a day that the
month does not have. -/
inductive ParseError where
  | bad
  | monthRange
  | extraText
  | dayOutOfRange
deriving DecidableEq, Repr

/-- Go `time.isDigit(s, i)`: `s` has an `i`-th byte and it is `0`..`9`. -/
def isDigit (s : List Char) (i : Nat) : Bool :=
  match s.get? i with
  | none => false
  | some c => decide (48 ≤ c.toNat ∧ c.toNat ≤ 57)

/-- The value of a digit byte, `c - 48`. -/
def digitVal (c : Char) : Nat := c.toNat - 48

/-- Go `time.leadingInt`: consumes the leading digits of `s`, accumulating
their decimal value onto `x`; returns the value and the rest. -/
def leadingInt : List Char → Nat → Nat × List Char
  | [], x => (x, [])
  | c :: cs, x =>
    if c.toNat < 48 ∨ c.toNat > 57 then (x, c :: cs)
    else leadingInt cs (x * 10 + digitVal c)

/-- Go `time.atoi`: an optional sign, then digits up to the end of `s`. -/
def timeAtoi (s : List Char) : Option Int :=
  let neg : Bool := match s with
    | c :: _ => decide (c = '-')
    | [] => false
  let s1 := match s with
    | c :: cs => if c = '-' ∨ c = '+' then cs else c :: cs
    | [] => []
  let (q, rem) := leadingInt s1 0
  if rem.length > 0 then none
  else if neg then some (-(q : Int)) else some (q : Int)

/-- Go `time.getnum(s, fixed)`: one or two digits (exactly two when `fixed`)
and the rest of `s`. -/
def getnum (s : List Char) (fixed : Bool) : Except ParseError (Nat × List Char) :=
  if !isDigit s 0 then .error .bad
  else if !isDigit s 1 then
    if fixed then .error .bad
    else .ok (digitVal (s.getD 0 '0'), s.drop 1)
  else .ok (digitVal (s.getD 0 '0') * 10 + digitVal (s.getD 1 '0'), s.drop 2)

/-- Go `time.skip(value, pre)` for literal layout text without blanks (the
layout's only literal text is `-`): `value` must start with `pre`. -/
def skip : List Char → List Char → Except ParseError (List Char)
  | value, [] => .ok value
  | [], _ :: _ => .error .bad
  | v :: value, p :: pre => if v ≠ p then .error .bad else skip value pre

/-- Go `time.Parse("2006-01-02", value)`: a four-digit year, `-`, a
two-digit month in 1..12, `-`, a two-digit day, nothing after it, and the
day must exist in that month of that year. -/
def Parse (value : String) : Except ParseError Time :=
  let v := value.data
  if v.length < 4 ∨ isDigit v 0 = false then .error .bad else
  match timeAtoi (v.take 4) with
  | none => .error .bad
  | some year =>
  match skip (v.drop 4) ['-'] with
  | .error e => .error e
  | .ok v =>
  match getnum v true with
  | .error e => .error e
  | .ok (month, v) =>
  if month ≤ 0 ∨ 12 < month then .error .monthRange else
  match skip v ['-'] with
  | .error e => .error e
  | .ok v =>
  match getnum v true with
  | .error e => .error e
  | .ok (day, v) =>
  if v.length ≠ 0 then .error .extraText else
  if day < 1 ∨ day > daysIn month year then .error .dayOutOfRange else
  .ok ⟨year, month, day⟩

/-- Go's zero `time.Time{}`: January 1 of year 1. -/
def zeroTime : Time := ⟨1, 1, 1⟩

/-- The Go idiom `t, _ := time.Parse(...)`: the parsed time, or the zero
time when the parse fails and its error is dropped. -/
def parseIgnoringError (value : String) : Time :=
  match Parse value with
  | .ok t => t
  | .error _ => zeroTime

/-- Go `time.appendInt(b, x, width)`: a sign for a negative `x`, then the
decimal digits of its magnitude, zero-padded on the left to `width`. -/
def appendInt (x : Int) (width : Nat) : String :=
  let digits := Nat.repr x.natAbs
  (if x < 0 then "-" else "") ++
    String.mk (List.replicate (width - digits.length) '0') ++ digits

/-- Go `t.Format("2006-01-02")`. -/
def Time.Format (t : Time) : String :=
  appendInt t.year 4 ++ "-" ++ appendInt t.month 2 ++ "-" ++ appendInt t.day 2

/-- The claim's "string of the exact form YYYY-MM-DD denoting a real calendar
date": ten characters, digits everywhere but dashes in the fifth and eighth
place, read as the date `t`, which exists. -/
def IsoDate (s : String) (t : Time) : Prop :=
  ∃ y1 y2 y3 y4 m1 m2 d1 d2 : Char,
    s.data = [y1, y2, y3, y4, '-', m1, m2, '-', d1, d2] ∧
    (∀ c ∈ [y1, y2, y3, y4, m1, m2, d1, d2], 48 ≤ c.toNat ∧ c.toNat ≤ 57) ∧
    t = ⟨((digitVal y1 * 1000 + digitVal y2 * 100 + digitVal y3 * 10 + digitVal y4 : Nat) : Int),
         digitVal m1 * 10 + digitVal m2, digitVal d1 * 10 + digitVal d2⟩ ∧
    t.Valid

/-! ## `strconv.Atoi` -/

/-- The two errors of Go's `strconv`: `ErrSyntax` (here `invalid`) and
`ErrRange` (here `outOfRange`). -/
inductive NumError where
  | invalid
  | outOfRange
deriving DecidableEq, Repr

/-- The digit loop of Go `strconv.ParseUint(s, 10, 64)`: any byte that is not
a decimal digit is a syntax error; a value past `2^64 - 1` is a range error,
reported as soon as it arises. -/
def parseUintLoop : List Char → Nat → Except NumError Nat
  | [], n => .ok n
  | c :: cs, n =>
    if 48 ≤ c.toNat ∧ c.toNat ≤ 57 then
      if n ≥ (2 ^ 64 - 1) / 10 + 1 then .error .outOfRange
      else
        let n1 := n * 10 + digitVal c
        if n1 > 2 ^ 64 - 1 then .error .outOfRange else parseUintLoop cs n1
    else .error .invalid

/-- Go `strconv.ParseUint(s, 10, 64)`. -/
def ParseUint (s : List Char) : Except NumError Nat :=
  if s = [] then .error .invalid else parseUintLoop s 0

/-- Go `strconv.Atoi(s)` on a 64-bit platform, that is `ParseInt(s, 10, 0)`
(the fast path for short strings computes the same result): an optional sign,
then decimal digits, the value within `-2^63 .. 2^63 - 1`. -/
def Atoi (s : String) : Except NumError Int :=
  match s.data with
  | [] => .error .invalid
  | c :: cs =>
    let neg := decide (c = '-')
    let s1 := if c = '+' ∨ c = '-' then cs else c :: cs
    match ParseUint s1 with
    | .error e => .error e
    | .ok un =>
      if !neg ∧ un ≥ 2 ^ 63 then .error .outOfRange
      else if neg ∧ un > 2 ^ 63 then .error .outOfRange
      else if neg then .ok (-(un : Int)) else .ok (un : Int)

/-! ## `go-playground/validator`: the tags used by the two input structs -/

/-- One entry of validator's `ValidationErrors`: the namespace of the field,
its name, and the tag that failed. -/
structure FieldError where
  namespace_ : String
  field : String
  tag : String
deriving DecidableEq, Repr

/-- Tag `required` on a string field (validator `hasValue`): the string is
not the zero value `""`.  Nothing is trimmed. -/
def hasValue (s : String) : Bool := decide (s.length ≠ 0)

/-- Tag `min=n` on a string field (validator `isGte`):
`utf8.RuneCountInString(s) >= n`. -/
def isGte (s : String) (n : Nat) : Bool := decide (s.length ≥ n)

/-- Tag `max=n` on a string field (validator `isLte`):
`utf8.RuneCountInString(s) <= n`. -/
def isLte (s : String) (n : Nat) : Bool := decide (s.length ≤ n)

/-- Tag `datetime=2006-01-02` (validator `isDatetime`):
`time.Parse(layout, s)` returns no error. -/
def isDatetime (s : String) : Bool :=
  match Parse s with
  | .ok _ => true
  | .error _ => false

/-- The first tag of `validate:"required,min=2,max=100"` that the `Name`
field fails, if any (validator stops a field at its first failing tag). -/
def nameTag (name : String) : Option String :=
  if hasValue name = false then some "required"
  else if isGte name 2 = false then some "min"
  else if isLte name 100 = false then some "max"
  else none

/-- The first tag of `validate:"required,datetime=2006-01-02"` that the
`DOB` field fails, if any. -/
def dobTag (dob : String) : Option String :=
  if hasValue dob = false then some "required"
  else if isDatetime dob = false then some "datetime"
  else none

/-- Source `validate.Struct(input)` for `CreateUserInput` / `UpdateUserInput`
(both declare the same two tagged fields): the field errors, `Name` first;
the Go error is `nil` exactly when the list is empty. -/
def validateStruct (typeName name dob : String) : List FieldError :=
  (match nameTag name with
    | some tag => [⟨typeName ++ ".Name", "Name", tag⟩]
    | none => []) ++
  (match dobTag dob with
    | some tag => [⟨typeName ++ ".DOB", "DOB", tag⟩]
    | none => [])

/-- Validator `fieldError.Error()`. -/
def FieldError.Error (e : FieldError) : String :=
  "Key: '" ++ e.namespace_ ++ "' Error:Field validation for '" ++ e.field ++
    "' failed on the '" ++ e.tag ++ "' tag"

/-- Validator `ValidationErrors.Error()`: one line per field error. -/
def validationMessage (es : List FieldError) : String :=
  "\n".intercalate (es.map FieldError.Error)

/-! ## The persistence gateway (`db/sqlc`) -/

/-- Modelled from the spec: `pgtype.Date` as the generated `db/sqlc` package
(not among the sources) uses it for the `dob` column: a date and the flag
that it is not SQL `NULL`. -/
structure PgDate where
  Time : Time
  Valid : Bool
deriving DecidableEq, Repr

/-- Modelled from the spec: the generated row type `db.User` (§3 User: `id`,
`name`, `dateOfBirth`); `ID` is an `int32`. -/
structure User where
  ID : Int
  Name : String
  Dob : PgDate
deriving DecidableEq, Repr

/-- Modelled from the spec: the generated `db.Queries` (§4.5), one operation
per row action, each returning its result or an error (here the error's
text).  The storage engine is an external collaborator; its answers are
inputs of the model. -/
structure Queries where
  ListUsersWithPagination : Int → Int → Except String (List User)
  CreateUser : String → PgDate → Except String User
  GetUserById : Int → Except String User
  UpdateUser : Int → String → PgDate → Except String User
  DeleteUser : Int → Except String Unit

/-- A call made on the gateway, with the arguments handed to it. -/
inductive Call where
  | ListUsersWithPagination (Limit Offset : Int)
  | CreateUser (Name : String) (Dob : PgDate)
  | GetUserById (id : Int)
  | UpdateUser (ID : Int) (Name : String) (Dob : PgDate)
  | DeleteUser (id : Int)
deriving DecidableEq, Repr

/-- `pgtype.Date.Scan(src)` for a `time.Time` source: stores it as a
non-null date and returns no error. -/
def PgDate.Scan (t : GoBackendTask.Time) : Except String PgDate := .ok ⟨t, true⟩

/-! ## The `fiber` request context, the logger and the environment -/

/-- Severity of a `zap` record. -/
inductive Level where
  | info
  | error
deriving DecidableEq, Repr

/-- A `zap` field value. -/
inductive LogField where
  | str (s : String)
  | int (i : Int)
  | duration (d : Int)
  | numError (input : String) (e : NumError)
deriving DecidableEq, Repr

/-- One record written through `logger.Logger`. -/
structure LogEntry where
  level : Level
  msg : String
  fields : List (String × LogField)
deriving DecidableEq, Repr

/-- Source `ErrorResponse` of `cmd/server/main.go`. -/
structure ErrorResponse where
  Error : String
  Message : String
deriving DecidableEq, Repr

/-- Source `UserResponse` of the `GET /users/:id` handler. -/
structure UserResponse where
  ID : Int
  Name : String
  DOB : String
  Age : Int
deriving DecidableEq, Repr

/-- What a handler wrote as the response body. -/
inductive Payload where
  | empty
  | text (s : String)
  | failure (e : ErrorResponse)
  | users (us : List User)
  | user (u : User)
  | userResponse (r : UserResponse)
deriving DecidableEq, Repr

/-- What `c.BodyParser(&input)` yields for the request body: an error, or
the decoded `name` and `dob` (`""` for a field the body leaves out). -/
inductive Body where
  | undecodable (err : String)
  | decoded (Name DOB : String)
deriving DecidableEq, Repr

/-- The route fiber's router resolves the request's method and path to: one
of the six registered handlers (with the `:id` segment for the three that
take one), or none; `allow` then lists, in the order of fiber's
`DefaultMethods`, the other methods under which the path is registered. -/
inductive Route where
  | root
  | listUsers
  | createUser
  | getUser (id : String)
  | updateUser (id : String)
  | deleteUser (id : String)
  | unmatched (allow : List String)
deriving DecidableEq, Repr

/-- A `*fiber.Error`: a status code and a message. -/
structure FiberError where
  Code : Nat
  Message : String
deriving DecidableEq, Repr

/-- The `*fiber.Ctx` of one request: the request as received, the response
under construction (`status` starts at 200), the request-scoped `Locals`,
and the two effects the handlers have on the world: the records written to
the logger and the calls made on the gateway, oldest first. -/
structure Ctx where
  method : String
  path : String
  route : Route
  headers : List (String × String)
  queries : List (String × String)
  body : Body
  status : Nat
  respHeaders : List (String × String)
  payload : Payload
  locals : List (String × String)
  logs : List LogEntry
  calls : List Call
deriving DecidableEq, Repr

/-- What a request's handling reads from outside the request: the gateway,
the date of `time.Now()` in the `GET /users/:id` handler, the token
`uuid.New().String()` would return, and the two readings of the monotonic
clock taken by `LoggingMiddleware` (`time.Now()` and, inside `time.Since`,
the later one), in nanoseconds. -/
structure Env where
  db : Queries
  now : Time
  uuid : String
  clockStart : Int
  clockStop : Int

/-- A fresh context for a request, as fiber hands it to the first handler. -/
def newCtx (method path : String) (route : Route) (headers queries : List (String × String))
    (body : Body) : Ctx :=
  { method := method, path := path, route := route, headers := headers, queries := queries,
    body := body, status := 200, respHeaders := [], payload := .empty, locals := [],
    logs := [], calls := [] }

/-- Fiber `c.Get(key)`: the request header, `""` when it is absent. -/
def Ctx.Get (c : Ctx) (key : String) : String :=
  match c.headers.lookup key with
  | some v => v
  | none => ""

/-- Fiber `c.Query(key, defaultValue)`: the query parameter, or the default
when it is absent or empty. -/
def Ctx.Query (c : Ctx) (key defaultValue : String) : String :=
  let value := match c.queries.lookup key with
    | some v => v
    | none => ""
  if value.length = 0 then defaultValue else value

/-- Fiber `c.Set(key, val)`: sets the response header, replacing a value
it already has. -/
def Ctx.Set (c : Ctx) (key val : String) : Ctx :=
  { c with respHeaders := (key, val) :: c.respHeaders.filter (fun kv => kv.1 ≠ key) }

/-- The value of a response header, if set. -/
def Ctx.respHeader (c : Ctx) (key : String) : Option String :=
  c.respHeaders.lookup key

/-- Fiber `c.Locals(key, value)`: stores a request-scoped value. -/
def Ctx.setLocals (c : Ctx) (key value : String) : Ctx :=
  { c with locals := (key, value) :: c.locals.filter (fun kv => kv.1 ≠ key) }

/-- Fiber `c.Locals(key)`: the stored value, `nil` (here `none`) if there is none. -/
def Ctx.Locals (c : Ctx) (key : String) : Option String :=
  c.locals.lookup key

/-- Fiber `c.Status(status)`. -/
def Ctx.Status (c : Ctx) (status : Nat) : Ctx := { c with status := status }

/-- Fiber `c.JSON(data)`: writes the body and sets the content type; returns
no error for the data the handlers pass. -/
def Ctx.JSON (c : Ctx) (data : Payload) : Ctx :=
  { c with payload := data }.Set "Content-Type" "application/json"

/-- Fiber `c.SendString(body)`. -/
def Ctx.SendString (c : Ctx) (body : String) : Ctx := { c with payload := .text body }

/-- Fiber `utils.StatusMessage` for the codes that occur. -/
def StatusMessage (status : Nat) : String :=
  if status = 204 then "No Content"
  else if status = 404 then "Not Found"
  else if status = 405 then "Method Not Allowed"
  else if status = 500 then "Internal Server Error"
  else ""

/-- Fiber `c.SendStatus(status)`: sets the status and, while the body is
empty, the status message as body (for a 204 the server then writes no body
on the wire). -/
def Ctx.SendStatus (c : Ctx) (status : Nat) : Ctx :=
  let c := c.Status status
  if c.payload = .empty then c.SendString (StatusMessage status) else c

/-- Go `strings.HasPrefix(h, p)`. -/
def startsWith (h p : String) : Bool := p.data.isPrefixOf h.data

/-- Go `strings.HasSuffix(h, p)`. -/
def endsWith (h p : String) : Bool := p.data.isSuffixOf h.data

/-- Go `strings.Contains(h, p)`. -/
def containsText (h p : String) : Bool := h.data.tails.any (fun t => p.data.isPrefixOf t)

/-- Fiber `c.Append(field, value)` for one value: adds the value to the
response header, after a comma, unless the header already lists it. -/
def Ctx.Append (c : Ctx) (field value : String) : Ctx :=
  let originalH := match c.respHeaders.lookup field with
    | some v => v
    | none => ""
  let h :=
    if originalH.length = 0 then value
    else if originalH ≠ value ∧ startsWith originalH (value ++ ",") = false ∧
        endsWith originalH (" " ++ value) = false ∧
        containsText originalH (" " ++ value ++ ",") = false then
      originalH ++ ", " ++ value
    else originalH
  if originalH ≠ h then c.Set field h else c

/-- Go `html.EscapeString`: `&`, `'`, `<`, `>` and `"` become `&amp;`,
`&#39;`, `&lt;`, `&gt;` and `&#34;`. -/
def htmlEscape (s : String) : String :=
  String.join (s.data.map (fun ch =>
    if ch = '&' then "&amp;"
    else if ch.toNat = 39 then "&#39;"
    else if ch = '<' then "&lt;"
    else if ch = '>' then "&gt;"
    else if ch.toNat = 34 then "&#34;"
    else String.singleton ch))

/-- Fiber v2 `DefaultMethods`, the HTTP methods `fiber.New()` knows. -/
def DefaultMethods : List String :=
  ["GET", "HEAD", "POST", "PUT", "DELETE", "CONNECT", "OPTIONS", "TRACE", "PATCH"]

/-- Source `logger.Logger.Info(msg, fields...)`. -/
def Ctx.Info (c : Ctx) (msg : String) (fields : List (String × LogField)) : Ctx :=
  { c with logs := c.logs ++ [⟨.info, msg, fields⟩] }

/-- Source `logger.Logger.Error(msg, fields...)`. -/
def Ctx.Error (c : Ctx) (msg : String) (fields : List (String × LogField)) : Ctx :=
  { c with logs := c.logs ++ [⟨.error, msg, fields⟩] }

/-- Records a call on the gateway. -/
def Ctx.call (c : Ctx) (k : Call) : Ctx := { c with calls := c.calls ++ [k] }

/-- A fiber handler: the context after it ran, and the Go `error` it returned. -/
abbrev Handler := Ctx → Ctx × Option FiberError

/-! ## `cmd/server/main.go` -/

/-- Source `sendErrorResponse(c, status, errType, msg)`. -/
def sendErrorResponse (c : Ctx) (status : Nat) (errType msg : String) : Ctx × Option FiberError :=
  let resp : ErrorResponse := { Error := errType, Message := msg }
  ((c.Status status).JSON (.failure resp), none)

/-- Source `GET /` handler. -/
def getRoot : Handler := fun c =>
  let c := c.Info "GET / called" []
  (c.SendString "Hello from GoFiber!", none)

/-- Source `GET /users`, lines 49 and 52-55: the normalized page. -/
def normalizedPage (c : Ctx) : Int :=
  let pageStr := c.Query "page" "1"
  match Atoi pageStr with
  | .error _ => 1
  | .ok page => if page < 1 then 1 else page

/-- Source `GET /users`, lines 50 and 56-59: the normalized limit. -/
def normalizedLimit (c : Ctx) : Int :=
  let limitStr := c.Query "limit" "10"
  match Atoi limitStr with
  | .error _ => 10
  | .ok limit => if limit < 1 then 10 else limit

/-- Source `GET /users`, lines 61-69: `offset := (page - 1) * limit` in Go
`int`, then `db.ListUsersWithPaginationParams{Limit: int32(limit), Offset:
int32(offset)}`, returned as `(Limit, Offset)`. -/
def paginationParams (page limit : Int) : Int × Int :=
  let offset := wrapInt ((page - 1) * limit)
  (int32 limit, int32 offset)

/-- Source `GET /users` handler. -/
def listUsers (env : Env) : Handler := fun c =>
  let page := normalizedPage c
  let limit := normalizedLimit c
  let params := paginationParams page limit
  let c := c.call (.ListUsersWithPagination params.1 params.2)
  match env.db.ListUsersWithPagination params.1 params.2 with
  | .error err =>
    let c := c.Error "Failed to list users with pagination" [("error", .str err)]
    sendErrorResponse c 500 "ServerError" err
  | .ok users => (c.JSON (.users users), none)

/-- Source `POST /users` handler. -/
def createUser (env : Env) : Handler := fun c =>
  let c := c.Info "POST /users called" []
  match c.body with
  | .undecodable err =>
    let c := c.Error "Invalid input to create user" [("error", .str err)]
    sendErrorResponse c 400 "BadRequest" ("Invalid input: " ++ err)
  | .decoded name dobStr =>
    let errs := validateStruct "CreateUserInput" name dobStr
    if errs ≠ [] then
      let c := c.Error "Validation failed on create user" [("error", .str (validationMessage errs))]
      sendErrorResponse c 400 "ValidationError" (validationMessage errs)
    else
      let t := parseIgnoringError dobStr
      match PgDate.Scan t with
      | .error err =>
        let c := c.Error "Date scan failed" [("error", .str err)]
        sendErrorResponse c 400 "BadRequest" ("Date scan failed: " ++ err)
      | .ok dob =>
        let c := c.call (.CreateUser name dob)
        match env.db.CreateUser name dob with
        | .error err =>
          let c := c.Error "Failed to create user" [("error", .str err)]
          sendErrorResponse c 500 "ServerError" ("Failed to create user: " ++ err)
        | .ok user =>
          let c := c.Info "User created" [("id", .int user.ID)]
          ((c.Status 201).JSON (.user user), none)

/-- Source `GET /users/:id` handler, lines 143-147: the age shown, computed
inline from `now` and the stored date of birth. -/
def inlineAge (now dobTime : Time) : Int :=
  let age := now.Year - dobTime.Year
  let age := if now.YearDay < dobTime.YearDay then age - 1 else age
  age

/-- Source `GET /users/:id` handler. -/
def getUser (env : Env) (idParam : String) : Handler := fun c =>
  let c := c.Info "GET /users/:id called" [("id", .str idParam)]
  match Atoi idParam with
  | .error e =>
    let c := c.Error "Invalid user ID" [("error", .numError idParam e)]
    sendErrorResponse c 400 "BadRequest" "Invalid user ID"
  | .ok id =>
    let c := c.call (.GetUserById (int32 id))
    match env.db.GetUserById (int32 id) with
    | .error err =>
      let c := c.Error "User not found" [("error", .str err)]
      sendErrorResponse c 404 "NotFound" "User not found"
    | .ok user =>
      if user.Dob.Valid = false then
        let c := c.Error "User has null DOB" []
        sendErrorResponse c 500 "ServerError" "User has null DOB"
      else
        let dobTime := user.Dob.Time
        let now := env.now
        let age := inlineAge now dobTime
        let resp : UserResponse :=
          { ID := user.ID, Name := user.Name, DOB := dobTime.Format, Age := age }
        let c := c.Info "User fetched" [("id", .int user.ID)]
        (c.JSON (.userResponse resp), none)

/-- Source `PUT /users/:id` handler. -/
def updateUser (env : Env) (idParam : String) : Handler := fun c =>
  let c := c.Info "PUT /users/:id called" [("id", .str idParam)]
  match Atoi idParam with
  | .error e =>
    let c := c.Error "Invalid user ID" [("error", .numError idParam e)]
    sendErrorResponse c 400 "BadRequest" "Invalid user ID"
  | .ok id =>
    match c.body with
    | .undecodable err =>
      let c := c.Error "Invalid input to update user" [("error", .str err)]
      sendErrorResponse c 400 "BadRequest" ("Invalid input: " ++ err)
    | .decoded name dobStr =>
      let errs := validateStruct "UpdateUserInput" name dobStr
      if errs ≠ [] then
        let c := c.Error "Validation failed on update user"
          [("error", .str (validationMessage errs))]
        sendErrorResponse c 400 "ValidationError" (validationMessage errs)
      else
        let t := parseIgnoringError dobStr
        match PgDate.Scan t with
        | .error err =>
          let c := c.Error "Date scan failed" [("error", .str err)]
          sendErrorResponse c 400 "BadRequest" ("Date scan failed: " ++ err)
        | .ok dob =>
          let c := c.call (.UpdateUser (int32 id) name dob)
          match env.db.UpdateUser (int32 id) name dob with
          | .error err =>
            let c := c.Error "Failed to update user" [("error", .str err)]
            sendErrorResponse c 500 "ServerError" ("Failed to update user: " ++ err)
          | .ok user =>
            let c := c.Info "User updated" [("id", .int user.ID)]
            (c.JSON (.user user), none)

/-- Source `DELETE /users/:id` handler. -/
def deleteUser (env : Env) (idParam : String) : Handler := fun c =>
  let c := c.Info "DELETE /users/:id called" [("id", .str idParam)]
  match Atoi idParam with
  | .error e =>
    let c := c.Error "Invalid user ID" [("error", .numError idParam e)]
    sendErrorResponse c 400 "BadRequest" "Invalid user ID"
  | .ok id =>
    let c := c.call (.DeleteUser (int32 id))
    match env.db.DeleteUser (int32 id) with
    | .error err =>
      let c := c.Error "Failed to delete user" [("error", .str err)]
      sendErrorResponse c 500 "ServerError" ("Failed to delete user: " ++ err)
    | .ok _ =>
      let c := c.Info "User deleted" [("id", .int id)]
      (c.SendStatus 204, none)

/-! ## `internal/middleware/middleware.go` and the fiber application -/

/-- Source `RequestIDMiddleware`; `next` is the rest of the chain, run by
`c.Next()`. -/
def RequestIDMiddleware (env : Env) (next : Handler) : Handler := fun c =>
  let requestID := c.Get "X-Request-ID"
  let requestID := if requestID = "" then env.uuid else requestID
  let c := c.Set "X-Request-ID" requestID
  let c := c.setLocals "requestid" requestID
  next c

/-- Source `LoggingMiddleware`; `next` is the rest of the chain, run by
`c.Next()`.  `c.Response().StatusCode()` is the status the context holds
when the record is written. -/
def LoggingMiddleware (env : Env) (next : Handler) : Handler := fun c =>
  let start := env.clockStart
  let (c, err) := next c
  let duration := env.clockStop - start
  let requestID := match c.Locals "requestid" with
    | none => ""
    | some v => v
  let c := c.Info "Request"
    [("method", .str c.method), ("path", .str c.path), ("status", .int c.status),
     ("request_id", .str requestID), ("duration", .duration duration)]
  (c, err)

/-- Fiber v2 `App.next`, as `c.Next()` reaches it once the two `app.Use`
middlewares have run: it runs the handler of the matched route and returns
its error; when no route matches, `methodExist` appends to the `Allow`
response header every other method under which the path is registered, and
the error returned is `ErrMethodNotAllowed` (405) if there is one, otherwise
`NewError(StatusNotFound, "Cannot "+method+" "+html.EscapeString(path))`.
The status and the body of the response are left alone. -/
def router (env : Env) : Handler := fun c =>
  match c.route with
  | .root => getRoot c
  | .listUsers => listUsers env c
  | .createUser => createUser env c
  | .getUser id => getUser env id c
  | .updateUser id => updateUser env id c
  | .deleteUser id => deleteUser env id c
  | .unmatched allow =>
    let c1 := allow.foldl (fun c0 m => c0.Append "Allow" m) c
    if allow ≠ [] then (c1, some ⟨405, "Method Not Allowed"⟩)
    else (c1, some ⟨404, "Cannot " ++ c.method ++ " " ++ htmlEscape c.path⟩)

/-- Fiber v2 `DefaultErrorHandler` (the application is built by `fiber.New()`
without a configuration): sets the content type to plain text and answers
`c.Status(e.Code).SendString(e.Error())`. -/
def DefaultErrorHandler (c : Ctx) (err : FiberError) : Ctx :=
  let c := c.Set "Content-Type" "text/plain; charset=utf-8"
  (c.Status err.Code).SendString err.Message

/-- Source `main`: the chain `app.Use(RequestIDMiddleware())`,
`app.Use(LoggingMiddleware())`, then the routes. -/
def chain (env : Env) : Handler :=
  RequestIDMiddleware env (LoggingMiddleware env (router env))

/-- Fiber v2 `App.handler`: a request whose method is not one of
`DefaultMethods` is answered at once, before any middleware runs, by
`c.Status(StatusBadRequest).SendString("Invalid http method")`; otherwise
the chain runs, `match, err := app.next(c)`, and only then
`if err != nil { app.ErrorHandler(c, err) }` turns the error into the
response.  The result is the context whose response is sent. -/
def serve (env : Env) (c : Ctx) : Ctx :=
  if c.method ∉ DefaultMethods then (c.Status 400).SendString "Invalid http method"
  else
    match chain env c with
    | (c, none) => c
    | (c, some err) => DefaultErrorHandler c err

/-- A byte is an ASCII decimal digit. -/
def IsDigitChar (c : Char) : Prop := 48 ≤ c.toNat ∧ c.toNat ≤ 57

instance (c : Char) : Decidable (IsDigitChar c) := by
  unfold IsDigitChar; exact inferInstance

/-- Days of the year before month `m` begins, for a year of leapness `L`. -/
def yearDayOffset (L : Bool) (m : Nat) : Nat :=
  daysBefore.getD (m - 1) 0 + (if L = true ∧ 3 ≤ m then 1 else 0)

/-- Length of month `m` in a year of leapness `L`. -/
def monthLen (L : Bool) (m : Nat) : Nat :=
  if m = 2 ∧ L = true then 29 else daysBefore.getD m 0 - daysBefore.getD (m - 1) 0

/-! ## Specification-side definitions and sample inputs -/

/-- The claim's page rule: 1 when the parameter is missing, is not accepted
by `strconv.Atoi`, or parses to a value below 1; the parsed value otherwise. -/
def specPage (raw : Option String) : Int :=
  match raw with
  | none => 1
  | some s =>
    match Atoi s with
    | .error _ => 1
    | .ok v => if v < 1 then 1 else v

/-- The claim's limit rule: 10 when the parameter is missing, non-numeric,
or parses to a value below 1; the parsed value otherwise. -/
def specLimit (raw : Option String) : Int :=
  match raw with
  | none => 10
  | some s =>
    match Atoi s with
    | .error _ => 10
    | .ok v => if v < 1 then 10 else v

/-- The spec's "length after trimming": the number of characters left once
the surrounding whitespace is removed. -/
def trimmedLength (s : String) : Nat :=
  ((s.data.dropWhile Char.isWhitespace).reverse.dropWhile Char.isWhitespace).length

/-- The response carries the error category `category`. -/
def Ctx.hasCategory (c : Ctx) (category : String) : Prop :=
  ∃ msg, c.payload = .failure ⟨category, msg⟩

/-- The part of the context the route handlers leave alone: the
`X-Request-ID` response header, the `Locals`, the method and the path. -/
def SameTrace (c c' : Ctx) : Prop :=
  c'.respHeader "X-Request-ID" = c.respHeader "X-Request-ID" ∧ c'.locals = c.locals ∧
    c'.method = c.method ∧ c'.path = c.path

/-- A gateway holding one user, Ann with id 1, born 1990-05-10: reads and
writes of any other id fail with the driver's "no rows" error. -/
def sampleDb : Queries :=
  { ListUsersWithPagination := fun _ _ => .ok [⟨1, "Ann", ⟨⟨1990, 5, 10⟩, true⟩⟩]
    CreateUser := fun n d => .ok ⟨2, n, d⟩
    GetUserById := fun i =>
      if i = 1 then .ok ⟨1, "Ann", ⟨⟨1990, 5, 10⟩, true⟩⟩ else .error "no rows in result set"
    UpdateUser := fun i n d => if i = 1 then .ok ⟨1, n, d⟩ else .error "no rows in result set"
    DeleteUser := fun i => if i = 1 then .ok () else .error "no rows in result set" }

/-- An environment over `sampleDb`: today is 2025-05-10, the clock reads
100 ns and then 250 ns. -/
def sampleEnv : Env :=
  { db := sampleDb, now := ⟨2025, 5, 10⟩, uuid := "3f0c6c1e-0000-4000-8000-000000000001",
    clockStart := 100, clockStop := 250 }

/-! ## Lemmas on the calendar -/

theorem yearDay_eq_dayOfYear (t : Time) (h1 : 1 ≤ t.month) (h2 : t.month ≤ 12) :
    t.YearDay = dayOfYear t := by
  obtain ⟨y, m, d⟩ := t
  simp only at h1 h2
  simp only [Time.YearDay, dayOfYear]
  cases hL : isLeap y <;>
    interval_cases m <;>
      simp [daysBefore, daysIn, hL, List.range_succ]

theorem offset_step : ∀ (L : Bool) (m m' : Fin 13), 1 ≤ m.val → m.val < m'.val →
    yearDayOffset L m.val + monthLen L m.val ≤ yearDayOffset L m'.val := by
  decide

theorem offset_mono (L : Bool) (m m' : Nat) (h1 : 1 ≤ m) (h2 : m < m') (h3 : m' ≤ 12) :
    yearDayOffset L m + monthLen L m ≤ yearDayOffset L m' :=
  offset_step L ⟨m, by omega⟩ ⟨m', by omega⟩ h1 h2

theorem yearDay_lt_iff (b r : Time) (hb : b.Valid) (hr : r.Valid)
    (hL : isLeap b.year = isLeap r.year) :
    r.YearDay < b.YearDay ↔ monthDayBefore r b := by
  obtain ⟨yb, mb, db⟩ := b
  obtain ⟨yr, mr, dr⟩ := r
  obtain ⟨hb1, hb2, hb3, hb4⟩ := hb
  obtain ⟨hr1, hr2, hr3, hr4⟩ := hr
  simp only at hb1 hb2 hb3 hb4 hr1 hr2 hr3 hr4 hL
  have eb : (⟨yb, mb, db⟩ : Time).YearDay = ((yearDayOffset (isLeap yb) mb + db : Nat) : Int) := by
    simp [Time.YearDay, yearDayOffset]
  have er : (⟨yr, mr, dr⟩ : Time).YearDay = ((yearDayOffset (isLeap yb) mr + dr : Nat) : Int) := by
    simp [Time.YearDay, yearDayOffset, hL]
  have lb : daysIn mb yb = monthLen (isLeap yb) mb := rfl
  have lr : daysIn mr yr = monthLen (isLeap yb) mr := by rw [hL]; rfl
  rw [eb, er]
  simp only [monthDayBefore]
  rw [lb] at hb4
  rw [lr] at hr4
  rcases Nat.lt_trichotomy mr mb with h | h | h
  · have := offset_mono (isLeap yb) mr mb hr1 h hb2
    constructor
    · intro _; exact Or.inl h
    · intro _; omega
  · subst h
    constructor
    · intro h'; right; exact ⟨rfl, by omega⟩
    · rintro (h' | ⟨_, h'⟩) <;> omega
  · have := offset_mono (isLeap yb) mb mr hb1 h hr2
    constructor
    · intro h'; omega
    · rintro (h' | ⟨h', _⟩) <;> omega

/-! ## Lemmas on `time.Parse` -/

theorem digit_ne_minus (c : Char) (h : IsDigitChar c) : c ≠ '-' := by
  rintro rfl; revert h; decide

theorem digit_ne_plus (c : Char) (h : IsDigitChar c) : c ≠ '+' := by
  rintro rfl; revert h; decide

theorem leadingInt_digit (c : Char) (cs : List Char) (x : Nat) (h : IsDigitChar c) :
    leadingInt (c :: cs) x = leadingInt cs (x * 10 + digitVal c) := by
  unfold IsDigitChar at h
  rw [leadingInt, if_neg (by omega)]

theorem leadingInt_nondigit (c : Char) (cs : List Char) (x : Nat) (h : ¬ IsDigitChar c) :
    leadingInt (c :: cs) x = (x, c :: cs) := by
  unfold IsDigitChar at h
  rw [leadingInt, if_pos (by omega)]

theorem timeAtoi_four (y1 y2 y3 y4 : Char) (year : Int) (h1 : IsDigitChar y1) :
    timeAtoi [y1, y2, y3, y4] = some year ↔
      IsDigitChar y2 ∧ IsDigitChar y3 ∧ IsDigitChar y4 ∧
      year = ((digitVal y1 * 1000 + digitVal y2 * 100 + digitVal y3 * 10 + digitVal y4 : Nat) : Int) := by
  have n1 := digit_ne_minus y1 h1
  have n2 := digit_ne_plus y1 h1
  simp only [timeAtoi, n1, n2, decide_False, or_self, if_false, leadingInt_digit _ _ _ h1]
  by_cases h2 : IsDigitChar y2
  · rw [leadingInt_digit _ _ _ h2]
    by_cases h3 : IsDigitChar y3
    · rw [leadingInt_digit _ _ _ h3]
      by_cases h4 : IsDigitChar y4
      · rw [leadingInt_digit _ _ _ h4]
        simp only [leadingInt, h2, h3, h4, true_and]
        simp
        constructor
        · intro h; rw [← h]; ring
        · intro h; rw [h]; ring
      · rw [leadingInt_nondigit _ _ _ h4]; simp [h4]
    · rw [leadingInt_nondigit _ _ _ h3]; simp [h3]
  · rw [leadingInt_nondigit _ _ _ h2]; simp [h2]

theorem skip_dash (v w : List Char) : skip v ['-'] = .ok w ↔ v = '-' :: w := by
  cases v with
  | nil => simp [skip]
  | cons c cs =>
    by_cases hc : c = '-'
    · subst hc; simp [skip]
    · simp [skip, hc]

theorem getnum_fixed (v w : List Char) (n : Nat) :
    getnum v true = .ok (n, w) ↔
      ∃ a b, v = a :: b :: w ∧ IsDigitChar a ∧ IsDigitChar b ∧ n = digitVal a * 10 + digitVal b := by
  rcases v with _ | ⟨a, _ | ⟨b, cs⟩⟩
  · simp [getnum, isDigit]
  · by_cases ha : 48 ≤ a.toNat ∧ a.toNat ≤ 57 <;> simp [getnum, isDigit, ha]
  · constructor
    · intro h
      by_cases ha : 48 ≤ a.toNat ∧ a.toNat ≤ 57
      · by_cases hb : 48 ≤ b.toNat ∧ b.toNat ≤ 57
        · simp [getnum, isDigit, ha, hb] at h
          obtain ⟨rfl, rfl⟩ := h
          exact ⟨a, b, rfl, ha, hb, rfl⟩
        · simp [getnum, isDigit, ha, hb] at h
      · simp [getnum, isDigit, ha] at h
    · rintro ⟨a', b', h, ha, hb, rfl⟩
      simp only [List.cons.injEq] at h
      obtain ⟨rfl, rfl, rfl⟩ := h
      unfold IsDigitChar at ha hb
      simp [getnum, isDigit, ha, hb]

theorem parse_cons4 (y1 y2 y3 y4 : Char) (rest : List Char) (t : Time) :
    Parse ⟨y1 :: y2 :: y3 :: y4 :: rest⟩ = .ok t ↔
      IsDigitChar y1 ∧ ∃ year month day m1 m2 d1 d2,
        timeAtoi [y1, y2, y3, y4] = some year ∧
        rest = ['-', m1, m2, '-', d1, d2] ∧
        IsDigitChar m1 ∧ IsDigitChar m2 ∧ IsDigitChar d1 ∧ IsDigitChar d2 ∧
        month = digitVal m1 * 10 + digitVal m2 ∧ day = digitVal d1 * 10 + digitVal d2 ∧
        t = ⟨year, month, day⟩ ∧ t.Valid := by
  constructor
  · intro h
    unfold Parse at h
    simp only [List.length_cons, List.take, List.drop] at h
    by_cases hd1 : IsDigitChar y1
    swap
    · unfold IsDigitChar at hd1
      simp [isDigit, hd1] at h
    refine ⟨hd1, ?_⟩
    have hd1' := hd1
    unfold IsDigitChar at hd1'
    rw [if_neg (by simp [isDigit, hd1'])] at h
    cases hta : timeAtoi [y1, y2, y3, y4] with
    | none => simp [hta] at h
    | some year =>
      simp only [hta] at h
      cases hs1 : skip rest ['-'] with
      | error e => simp [hs1] at h
      | ok v1 =>
        simp only [hs1] at h
        cases hg1 : getnum v1 true with
        | error e => simp [hg1] at h
        | ok r1 =>
          obtain ⟨month, v2⟩ := r1
          simp only [hg1] at h
          by_cases hm : month ≤ 0 ∨ 12 < month
          · rw [if_pos hm] at h; cases h
          rw [if_neg hm] at h
          cases hs2 : skip v2 ['-'] with
          | error e => simp [hs2] at h
          | ok v3 =>
            simp only [hs2] at h
            cases hg2 : getnum v3 true with
            | error e => simp [hg2] at h
            | ok r2 =>
              obtain ⟨day, v4⟩ := r2
              simp only [hg2] at h
              by_cases hv4 : v4.length ≠ 0
              · rw [if_pos hv4] at h; cases h
              rw [if_neg hv4] at h
              by_cases hday : day < 1 ∨ day > daysIn month year
              · rw [if_pos hday] at h; cases h
              rw [if_neg hday] at h
              simp only [Except.ok.injEq] at h
              rw [skip_dash] at hs1 hs2
              rw [getnum_fixed] at hg1 hg2
              obtain ⟨m1, m2, rfl, hm1, hm2, rfl⟩ := hg1
              obtain ⟨d1, d2, rfl, hd1, hd2, rfl⟩ := hg2
              have : v4 = [] := by
                cases v4 with
                | nil => rfl
                | cons _ _ => simp at hv4
              subst this
              subst hs2
              subst hs1
              refine ⟨year, _, _, m1, m2, d1, d2, rfl, rfl, hm1, hm2, hd1, hd2, rfl, rfl, h.symm, ?_⟩
              rw [← h]
              simp only [Time.Valid]
              omega
  · rintro ⟨hd1, year, month, day, m1, m2, d1, d2, hta, rfl, hm1, hm2, hd1', hd2, rfl, rfl, rfl, hv⟩
    obtain ⟨hv1, hv2, hv3, hv4⟩ := hv
    simp only at hv1 hv2 hv3 hv4
    have hd1c := hd1
    unfold IsDigitChar at hd1c
    have g1 : getnum [m1, m2, '-', d1, d2] true
        = .ok (digitVal m1 * 10 + digitVal m2, ['-', d1, d2]) :=
      (getnum_fixed _ _ _).2 ⟨m1, m2, rfl, hm1, hm2, rfl⟩
    have g2 : getnum [d1, d2] true = .ok (digitVal d1 * 10 + digitVal d2, []) :=
      (getnum_fixed _ _ _).2 ⟨d1, d2, rfl, hd1', hd2, rfl⟩
    unfold Parse
    simp only [List.length_cons, List.take, List.drop]
    rw [if_neg (by simp [isDigit, hd1c])]
    have c1 : ¬ (digitVal m1 * 10 + digitVal m2 ≤ 0 ∨ 12 < digitVal m1 * 10 + digitVal m2) := by
      omega
    have c2 : ¬ (digitVal d1 * 10 + digitVal d2 < 1 ∨
        digitVal d1 * 10 + digitVal d2 > daysIn (digitVal m1 * 10 + digitVal m2) year) := by
      omega
    simp only [hta, skip, ne_eq, not_true_eq_false, if_false, g1, if_neg c1, g2,
      List.length_nil, if_neg c2]

theorem parse_short (l : List Char) (h : l.length < 4) (t : Time) :
    Parse ⟨l⟩ ≠ .ok t := by
  unfold Parse
  simp only
  rw [if_pos (Or.inl h)]
  intro h'; cases h'

/-- `time.Parse("2006-01-02", s)` succeeds with `t` exactly when `s` has the
form `YYYY-MM-DD` and reads as the real calendar date `t`. -/
theorem parse_ok_iff (s : String) (t : Time) : Parse s = .ok t ↔ IsoDate s t := by
  obtain ⟨l⟩ := s
  unfold IsoDate
  simp only
  constructor
  · intro h
    rcases l with _ | ⟨y1, _ | ⟨y2, _ | ⟨y3, _ | ⟨y4, rest⟩⟩⟩⟩
    · exact absurd h (parse_short _ (by simp) t)
    · exact absurd h (parse_short _ (by simp) t)
    · exact absurd h (parse_short _ (by simp) t)
    · exact absurd h (parse_short _ (by simp) t)
    · rw [parse_cons4] at h
      obtain ⟨hd1, year, month, day, m1, m2, d1, d2, hta, rfl, hm1, hm2, hd1', hd2, rfl, rfl,
        rfl, hv⟩ := h
      rw [timeAtoi_four _ _ _ _ _ hd1] at hta
      obtain ⟨h2, h3, h4, rfl⟩ := hta
      refine ⟨y1, y2, y3, y4, m1, m2, d1, d2, rfl, ?_, rfl, hv⟩
      intro c hc
      simp only [List.mem_cons, List.mem_singleton, List.not_mem_nil, or_false] at hc
      rcases hc with rfl | rfl | rfl | rfl | rfl | rfl | rfl | rfl <;> assumption
  · rintro ⟨y1, y2, y3, y4, m1, m2, d1, d2, rfl, hdig, rfl, hv⟩
    have hy1 : IsDigitChar y1 := hdig y1 (by simp)
    have hy2 : IsDigitChar y2 := hdig y2 (by simp)
    have hy3 : IsDigitChar y3 := hdig y3 (by simp)
    have hy4 : IsDigitChar y4 := hdig y4 (by simp)
    rw [parse_cons4]
    refine ⟨hy1, _, _, _, m1, m2, d1, d2, (timeAtoi_four _ _ _ _ _ hy1).2 ⟨hy2, hy3, hy4, rfl⟩,
      rfl, hdig m1 (by simp), hdig m2 (by simp), hdig d1 (by simp), hdig d2 (by simp),
      rfl, rfl, rfl, hv⟩

/-- A successful `time.Parse` yields a real calendar date. -/
theorem parse_valid (s : String) (t : Time) (h : Parse s = .ok t) : t.Valid := by
  obtain ⟨_, _, _, _, _, _, _, _, _, _, _, hv⟩ := (parse_ok_iff s t).1 h
  exact hv


/-! ## Age -/

/-- C1: for all (real) dates `b` and `r`, `CalculateAge b r` is
`year r - year b`, one less exactly when `dayOfYear r < dayOfYear b`, with
`dayOfYear` the 1-based ordinal of the date within its calendar year; and
the four dates of the test table give 35, 24, 25 and 35. -/
theorem calculateAge_spec (b r : Time) (hb : b.Valid) (hr : r.Valid) :
    CalculateAge b r
        = (if dayOfYear r < dayOfYear b then r.year - b.year - 1 else r.year - b.year) ∧
      CalculateAge (parseIgnoringError "1990-05-10") (parseIgnoringError "2025-05-10") = 35 ∧
      CalculateAge (parseIgnoringError "2000-12-31") (parseIgnoringError "2025-10-27") = 24 ∧
      CalculateAge (parseIgnoringError "2000-01-01") (parseIgnoringError "2025-10-27") = 25 ∧
      CalculateAge (parseIgnoringError "1989-02-28") (parseIgnoringError "2024-02-29") = 35 := by
  refine ⟨?_, by decide, by decide, by decide, by decide⟩
  simp only [CalculateAge, Time.Year]
  rw [yearDay_eq_dayOfYear b hb.1 hb.2.1, yearDay_eq_dayOfYear r hr.1 hr.2.1]

/-- C1 at the dates 1989-02-28 and 2024-02-29. -/
theorem calculateAge_spec_witness :
    (⟨1989, 2, 28⟩ : Time).Valid ∧ (⟨2024, 2, 29⟩ : Time).Valid ∧
      CalculateAge ⟨1989, 2, 28⟩ ⟨2024, 2, 29⟩
        = (if dayOfYear ⟨2024, 2, 29⟩ < dayOfYear ⟨1989, 2, 28⟩ then (2024 : Int) - 1989 - 1
            else 2024 - 1989) :=
  ⟨by decide, by decide, (calculateAge_spec ⟨1989, 2, 28⟩ ⟨2024, 2, 29⟩ (by decide) (by decide)).1⟩

theorem inlineAge_eq (now dobTime : Time) : inlineAge now dobTime = CalculateAge dobTime now := rfl

theorem calculateAge_exact (b r : Time) (hb : b.Valid) (hr : r.Valid)
    (hL : isLeap b.year = isLeap r.year) : CalculateAge b r = calendarAge b r := by
  have h := yearDay_lt_iff b r hb hr hL
  simp only [CalculateAge, calendarAge, Time.Year]
  by_cases hlt : r.YearDay < b.YearDay
  · rw [if_pos hlt, if_pos (h.1 hlt)]
  · rw [if_neg hlt, if_neg (fun h' => hlt (h.2 h'))]; omega

/-- C10: for real dates `b` and `r` whose years are both leap or both
non-leap, the day-of-year formula, in `CalculateAge` and inline in the
`GET /users/:id` handler (whose response then carries that age), equals the
calendar-exact age; so the two can differ only when exactly one of the two
years is a leap year. -/
theorem age_exact_same_leapness (b r : Time) (hb : b.Valid) (hr : r.Valid) :
    (isLeap b.year = isLeap r.year →
      CalculateAge b r = calendarAge b r ∧ inlineAge r b = calendarAge b r ∧
      ∀ (env : Env) (idParam : String) (id : Int) (c : Ctx) (user : User),
        Atoi idParam = .ok id → env.db.GetUserById (int32 id) = .ok user →
        user.Dob = ⟨b, true⟩ → env.now = r →
        (getUser env idParam c).1.payload
          = .userResponse ⟨user.ID, user.Name, b.Format, calendarAge b r⟩) ∧
    (CalculateAge b r ≠ calendarAge b r → isLeap b.year ≠ isLeap r.year) := by
  refine ⟨fun hL => ⟨calculateAge_exact b r hb hr hL, ?_, ?_⟩, fun hne hL => ?_⟩
  · rw [inlineAge_eq]; exact calculateAge_exact b r hb hr hL
  · intro env idParam id c user hid hget hdob hnow
    simp only [getUser, hid, hget, hdob, hnow, inlineAge_eq, calculateAge_exact b r hb hr hL]
    simp [Ctx.JSON, Ctx.Set, Ctx.Info]
  · exact hne (calculateAge_exact b r hb hr hL)

/-- C10 at the dates 2000-12-31 and 2024-10-27, both in leap years. -/
theorem age_exact_same_leapness_witness :
    (⟨2000, 12, 31⟩ : Time).Valid ∧ (⟨2024, 10, 27⟩ : Time).Valid ∧
      isLeap 2000 = isLeap 2024 ∧
      CalculateAge ⟨2000, 12, 31⟩ ⟨2024, 10, 27⟩ = calendarAge ⟨2000, 12, 31⟩ ⟨2024, 10, 27⟩ :=
  ⟨by decide, by decide, by decide,
    ((age_exact_same_leapness ⟨2000, 12, 31⟩ ⟨2024, 10, 27⟩ (by decide) (by decide)).1
      (by decide)).1⟩

/-! ## Pagination -/

theorem query_missing (c : Ctx) (key d : String) (h : c.queries.lookup key = none) :
    c.Query key d = d := by
  simp [Ctx.Query, h]

theorem query_present (c : Ctx) (key d s : String) (h : c.queries.lookup key = some s) :
    c.Query key d = if s.length = 0 then d else s := by
  simp [Ctx.Query, h]

theorem atoi_empty (s : String) (h : s.length = 0) : Atoi s = .error .invalid := by
  obtain ⟨l⟩ := s
  cases l with
  | nil => rfl
  | cons a l => simp [String.length] at h

theorem normalizedPage_eq (c : Ctx) : normalizedPage c = specPage (c.queries.lookup "page") := by
  unfold normalizedPage specPage
  cases h : c.queries.lookup "page" with
  | none => rw [query_missing c _ _ h]; decide
  | some s =>
    rw [query_present c _ _ _ h]
    by_cases hs : s.length = 0
    · rw [if_pos hs]; simp only [atoi_empty s hs]; decide
    · rw [if_neg hs]

theorem normalizedLimit_eq (c : Ctx) :
    normalizedLimit c = specLimit (c.queries.lookup "limit") := by
  unfold normalizedLimit specLimit
  cases h : c.queries.lookup "limit" with
  | none => rw [query_missing c _ _ h]; decide
  | some s =>
    rw [query_present c _ _ _ h]
    by_cases hs : s.length = 0
    · rw [if_pos hs]; simp only [atoi_empty s hs]; decide
    · rw [if_neg hs]

theorem normalizedPage_pos (c : Ctx) : 1 ≤ normalizedPage c := by
  unfold normalizedPage
  simp only
  cases Atoi (c.Query "page" "1") with
  | error e => simp
  | ok v => simp only; split <;> omega

theorem normalizedLimit_pos (c : Ctx) : 1 ≤ normalizedLimit c := by
  unfold normalizedLimit
  simp only
  cases Atoi (c.Query "limit" "10") with
  | error e => simp
  | ok v => simp only; split <;> omega

/-- C2: in the `GET /users` handler the normalized page is 1 when `page` is
missing, not accepted by `strconv.Atoi`, or below 1, and the parsed value
otherwise; the normalized limit is 10 in the same cases and the parsed
value otherwise.  No input is rejected: for every request the gateway is
asked for the window of the normalized values, and the answer is the list on
success and a 500 `ServerError` on a gateway failure. -/
theorem listUsers_normalizes (env : Env) (c : Ctx) :
    normalizedPage c = specPage (c.queries.lookup "page") ∧
    normalizedLimit c = specLimit (c.queries.lookup "limit") ∧
    1 ≤ normalizedPage c ∧ 1 ≤ normalizedLimit c ∧
    (listUsers env c).1.calls = c.calls ++
      [.ListUsersWithPagination (paginationParams (normalizedPage c) (normalizedLimit c)).1
        (paginationParams (normalizedPage c) (normalizedLimit c)).2] ∧
    (∀ us, env.db.ListUsersWithPagination
        (paginationParams (normalizedPage c) (normalizedLimit c)).1
        (paginationParams (normalizedPage c) (normalizedLimit c)).2 = .ok us →
      (listUsers env c).1.payload = .users us ∧ (listUsers env c).1.status = c.status) ∧
    (∀ e, env.db.ListUsersWithPagination
        (paginationParams (normalizedPage c) (normalizedLimit c)).1
        (paginationParams (normalizedPage c) (normalizedLimit c)).2 = .error e →
      (listUsers env c).1.payload = .failure ⟨"ServerError", e⟩ ∧
      (listUsers env c).1.status = 500) := by
  refine ⟨normalizedPage_eq c, normalizedLimit_eq c, normalizedPage_pos c,
    normalizedLimit_pos c, ?_, ?_, ?_⟩
  · unfold listUsers
    simp only
    split <;> simp [sendErrorResponse, Ctx.JSON, Ctx.Set, Ctx.Status, Ctx.Error, Ctx.call]
  · intro us h
    unfold listUsers
    simp only [h]
    simp [Ctx.JSON, Ctx.Set, Ctx.call]
  · intro e h
    unfold listUsers
    simp only [h]
    simp [sendErrorResponse, Ctx.JSON, Ctx.Set, Ctx.Status, Ctx.Error, Ctx.call]

/-- Within the `int32` range the window is the one the spec names:
`Limit = limit` and `Offset = (page - 1) * limit`. -/
theorem paginationParams_in_range (page limit : Int) (hp : 1 ≤ page) (hl : 1 ≤ limit)
    (hlim : limit < 2 ^ 31) (hoff : (page - 1) * limit < 2 ^ 31) :
    paginationParams page limit = (limit, (page - 1) * limit) := by
  have h0 : 0 ≤ (page - 1) * limit := Int.mul_nonneg (by omega) (by omega)
  simp only [paginationParams, wrapInt, int32]
  generalize (page - 1) * limit = o at *
  refine Prod.ext ?_ ?_ <;> simp only <;> omega

/-- C3, at the failing inputs: `GET /users?page=1&limit=2147483648` keeps
page 1 and limit 2147483648 (both valid, at least 1), yet the gateway is
handed `Limit = -2147483648`; and `GET /users?page=3&limit=1073741824` hands
it `Offset = -2147483648` where `(page - 1) * limit = 2147483648`. -/
theorem listUsers_window_truncated :
    normalizedPage (newCtx "GET" "/users" .listUsers []
        [("page", "1"), ("limit", "2147483648")] (.undecodable "Unprocessable Entity")) = 1 ∧
    normalizedLimit (newCtx "GET" "/users" .listUsers []
        [("page", "1"), ("limit", "2147483648")] (.undecodable "Unprocessable Entity")) = 2147483648 ∧
    (listUsers sampleEnv (newCtx "GET" "/users" .listUsers []
        [("page", "1"), ("limit", "2147483648")] (.undecodable "Unprocessable Entity"))).1.calls
      = [.ListUsersWithPagination (-2147483648) 0] ∧
    (listUsers sampleEnv (newCtx "GET" "/users" .listUsers []
        [("page", "3"), ("limit", "1073741824")] (.undecodable "Unprocessable Entity"))).1.calls
      = [.ListUsersWithPagination 1073741824 (-2147483648)] := by
  refine ⟨by decide, by decide, by decide, by decide⟩

/-! ## Validation -/

theorem nameTag_none_iff (name : String) :
    nameTag name = none ↔ 2 ≤ name.length ∧ name.length ≤ 100 := by
  unfold nameTag hasValue isGte isLte
  by_cases h0 : name.length = 0
  · simp [h0]
  · by_cases h2 : 2 ≤ name.length
    · by_cases h100 : name.length ≤ 100 <;> simp [h0, h2, h100]
    · simp [h0, h2]

theorem isDatetime_iff (dob : String) : isDatetime dob = true ↔ ∃ t, Parse dob = .ok t := by
  unfold isDatetime
  cases Parse dob <;> simp

theorem parse_empty (dob : String) (h : dob.length = 0) (t : Time) : Parse dob ≠ .ok t := by
  obtain ⟨l⟩ := dob
  exact parse_short l (by simp only [String.length] at h; omega) t

theorem dobTag_none_iff (dob : String) : dobTag dob = none ↔ ∃ t, Parse dob = .ok t := by
  unfold dobTag hasValue
  by_cases h0 : dob.length = 0
  · simp only [h0, ne_eq, not_true_eq_false, decide_False, if_true]
    constructor
    · intro h; cases h
    · rintro ⟨t, ht⟩; exact absurd ht (parse_empty dob h0 t)
  · rw [← isDatetime_iff]
    cases isDatetime dob <;> simp [h0]

theorem validateStruct_nil_iff (typeName name dob : String) :
    validateStruct typeName name dob = [] ↔ nameTag name = none ∧ dobTag dob = none := by
  unfold validateStruct
  cases nameTag name <;> cases dobTag dob <;> simp

theorem parseIgnoringError_ok (dob : String) (t : Time) (h : Parse dob = .ok t) :
    parseIgnoringError dob = t := by
  simp [parseIgnoringError, h]

theorem createUser_rejects (env : Env) (c : Ctx) (name dob : String)
    (hbody : c.body = .decoded name dob)
    (hv : validateStruct "CreateUserInput" name dob ≠ []) :
    (createUser env c).1.status = 400 ∧ (createUser env c).1.hasCategory "ValidationError" ∧
      (createUser env c).1.calls = c.calls := by
  unfold createUser Ctx.hasCategory
  simp only [Ctx.Info, hbody, hv, ne_eq, not_false_eq_true, if_true]
  simp [sendErrorResponse, Ctx.JSON, Ctx.Set, Ctx.Status, Ctx.Error]

theorem createUser_accepts (env : Env) (c : Ctx) (name dob : String) (t : Time)
    (hbody : c.body = .decoded name dob)
    (hv : validateStruct "CreateUserInput" name dob = []) (ht : Parse dob = .ok t) :
    (createUser env c).1.calls = c.calls ++ [.CreateUser name ⟨t, true⟩] ∧
      ¬ (createUser env c).1.hasCategory "ValidationError" := by
  unfold createUser Ctx.hasCategory
  simp only [Ctx.Info, hbody, hv, ne_eq, not_true_eq_false, if_false,
    parseIgnoringError_ok dob t ht, PgDate.Scan]
  cases env.db.CreateUser name ⟨t, true⟩ <;>
    simp [sendErrorResponse, Ctx.JSON, Ctx.Set, Ctx.Status, Ctx.Error, Ctx.call, Ctx.Info]

theorem updateUser_rejects (env : Env) (c : Ctx) (idParam : String) (id : Int)
    (name dob : String) (hid : Atoi idParam = .ok id)
    (hbody : c.body = .decoded name dob)
    (hv : validateStruct "UpdateUserInput" name dob ≠ []) :
    (updateUser env idParam c).1.status = 400 ∧
      (updateUser env idParam c).1.hasCategory "ValidationError" ∧
      (updateUser env idParam c).1.calls = c.calls := by
  unfold updateUser Ctx.hasCategory
  simp only [Ctx.Info, hid, hbody, hv, ne_eq, not_false_eq_true, if_true]
  simp [sendErrorResponse, Ctx.JSON, Ctx.Set, Ctx.Status, Ctx.Error]

theorem updateUser_accepts (env : Env) (c : Ctx) (idParam : String) (id : Int)
    (name dob : String) (t : Time) (hid : Atoi idParam = .ok id)
    (hbody : c.body = .decoded name dob)
    (hv : validateStruct "UpdateUserInput" name dob = []) (ht : Parse dob = .ok t) :
    (updateUser env idParam c).1.calls = c.calls ++ [.UpdateUser (int32 id) name ⟨t, true⟩] ∧
      ¬ (updateUser env idParam c).1.hasCategory "ValidationError" := by
  unfold updateUser Ctx.hasCategory
  simp only [Ctx.Info, hid, hbody, hv, ne_eq, not_true_eq_false, if_false,
    parseIgnoringError_ok dob t ht, PgDate.Scan]
  cases env.db.UpdateUser (int32 id) name ⟨t, true⟩ <;>
    simp [sendErrorResponse, Ctx.JSON, Ctx.Set, Ctx.Status, Ctx.Error, Ctx.call, Ctx.Info]

theorem updateUser_bad_id (env : Env) (c : Ctx) (idParam : String) (e : NumError)
    (hid : Atoi idParam = .error e) :
    (updateUser env idParam c).1.status = 400 ∧
      (updateUser env idParam c).1.payload = .failure ⟨"BadRequest", "Invalid user ID"⟩ ∧
      (updateUser env idParam c).1.calls = c.calls := by
  unfold updateUser
  simp only [hid]
  simp [sendErrorResponse, Ctx.JSON, Ctx.Set, Ctx.Status, Ctx.Error, Ctx.Info]

theorem validate_iff_length (typeName name dob : String) (t : Time) (ht : Parse dob = .ok t) :
    validateStruct typeName name dob = [] ↔ 2 ≤ name.length ∧ name.length ≤ 100 := by
  rw [validateStruct_nil_iff, nameTag_none_iff, dobTag_none_iff]
  exact ⟨fun h => h.1, fun h => ⟨h, t, ht⟩⟩

/-- C4, refuted for Update: on `PUT /users/abc` a decodable body with a
valid dob and a name of length 1 is answered 400 `BadRequest`, not
`ValidationError`, and one with a name of length 2 reaches no validation and
no gateway write: the handler rejects the non-numeric path id before it
reads the body. -/
theorem name_validation_skipped_bad_id :
    Atoi "abc" = .error .invalid ∧ Parse "2000-01-01" = .ok ⟨2000, 1, 1⟩ ∧
    "a".length = 1 ∧
    (updateUser sampleEnv "abc" (newCtx "PUT" "/users/abc" (.updateUser "abc") [] []
      (.decoded "a" "2000-01-01"))).1.payload = .failure ⟨"BadRequest", "Invalid user ID"⟩ ∧
    "Al".length = 2 ∧
    (updateUser sampleEnv "abc" (newCtx "PUT" "/users/abc" (.updateUser "abc") [] []
      (.decoded "Al" "2000-01-01"))).1.payload = .failure ⟨"BadRequest", "Invalid user ID"⟩ ∧
    (updateUser sampleEnv "abc" (newCtx "PUT" "/users/abc" (.updateUser "abc") [] []
      (.decoded "Al" "2000-01-01"))).1.calls = [] := by
  refine ⟨by decide, by decide, by decide, by decide, by decide, by decide, by decide⟩

/-- C4, amended: for a decodable Create body, and a decodable Update body
sent to a numeric path id, with a valid dob, the name passes validation iff
its length is in [2,100]; then the gateway write is attempted, and otherwise
the answer is 400 `ValidationError` and the gateway is not called.  In
particular length 1 and length 101 are rejected, length 2 and length 100 are
accepted.  An Update sent to a non-numeric path id is answered 400
`BadRequest` before the body is read, and the gateway is not called. -/
theorem name_length_validation (env : Env) (c : Ctx) (name dob idParam : String) (id : Int)
    (t : Time) (hbody : c.body = .decoded name dob) (hdob : Parse dob = .ok t)
    (hid : Atoi idParam = .ok id) :
    (validateStruct "CreateUserInput" name dob = [] ↔ 2 ≤ name.length ∧ name.length ≤ 100) ∧
    (validateStruct "UpdateUserInput" name dob = [] ↔ 2 ≤ name.length ∧ name.length ≤ 100) ∧
    (2 ≤ name.length ∧ name.length ≤ 100 →
      (createUser env c).1.calls = c.calls ++ [.CreateUser name ⟨t, true⟩] ∧
      ¬ (createUser env c).1.hasCategory "ValidationError" ∧
      (updateUser env idParam c).1.calls = c.calls ++ [.UpdateUser (int32 id) name ⟨t, true⟩] ∧
      ¬ (updateUser env idParam c).1.hasCategory "ValidationError") ∧
    (¬ (2 ≤ name.length ∧ name.length ≤ 100) →
      (createUser env c).1.status = 400 ∧ (createUser env c).1.hasCategory "ValidationError" ∧
      (createUser env c).1.calls = c.calls ∧
      (updateUser env idParam c).1.status = 400 ∧
      (updateUser env idParam c).1.hasCategory "ValidationError" ∧
      (updateUser env idParam c).1.calls = c.calls) ∧
    (name.length = 1 ∨ name.length = 101 →
      (createUser env c).1.status = 400 ∧ (createUser env c).1.hasCategory "ValidationError" ∧
      (createUser env c).1.calls = c.calls ∧
      (updateUser env idParam c).1.status = 400 ∧
      (updateUser env idParam c).1.hasCategory "ValidationError" ∧
      (updateUser env idParam c).1.calls = c.calls) ∧
    (name.length = 2 ∨ name.length = 100 →
      (createUser env c).1.calls = c.calls ++ [.CreateUser name ⟨t, true⟩] ∧
      (updateUser env idParam c).1.calls
        = c.calls ++ [.UpdateUser (int32 id) name ⟨t, true⟩]) ∧
    (∀ (p : String) (e : NumError), Atoi p = .error e →
      (updateUser env p c).1.status = 400 ∧
      (updateUser env p c).1.payload = .failure ⟨"BadRequest", "Invalid user ID"⟩ ∧
      (updateUser env p c).1.calls = c.calls) := by
  have hc := validate_iff_length "CreateUserInput" name dob t hdob
  have hu := validate_iff_length "UpdateUserInput" name dob t hdob
  have acc : 2 ≤ name.length ∧ name.length ≤ 100 →
      (createUser env c).1.calls = c.calls ++ [.CreateUser name ⟨t, true⟩] ∧
      ¬ (createUser env c).1.hasCategory "ValidationError" ∧
      (updateUser env idParam c).1.calls = c.calls ++ [.UpdateUser (int32 id) name ⟨t, true⟩] ∧
      ¬ (updateUser env idParam c).1.hasCategory "ValidationError" := fun h =>
    ⟨(createUser_accepts env c name dob t hbody (hc.2 h) hdob).1,
     (createUser_accepts env c name dob t hbody (hc.2 h) hdob).2,
     (updateUser_accepts env c idParam id name dob t hid hbody (hu.2 h) hdob).1,
     (updateUser_accepts env c idParam id name dob t hid hbody (hu.2 h) hdob).2⟩
  have rej : ¬ (2 ≤ name.length ∧ name.length ≤ 100) →
      (createUser env c).1.status = 400 ∧ (createUser env c).1.hasCategory "ValidationError" ∧
      (createUser env c).1.calls = c.calls ∧
      (updateUser env idParam c).1.status = 400 ∧
      (updateUser env idParam c).1.hasCategory "ValidationError" ∧
      (updateUser env idParam c).1.calls = c.calls := fun h =>
    have r1 := createUser_rejects env c name dob hbody (fun h' => h (hc.1 h'))
    have r2 := updateUser_rejects env c idParam id name dob hid hbody (fun h' => h (hu.1 h'))
    ⟨r1.1, r1.2.1, r1.2.2, r2.1, r2.2.1, r2.2.2⟩
  refine ⟨hc, hu, acc, rej, fun h => rej (by omega), fun h => ?_,
    fun p e hp => updateUser_bad_id env c p e hp⟩
  have a := acc (by omega)
  exact ⟨a.1, a.2.2.1⟩

/-- C4 as amended, at the body `{name: "Al", dob: "2000-01-01"}` and the
path id `1`. -/
theorem name_length_validation_witness :
    (newCtx "POST" "/users" .createUser [] [] (.decoded "Al" "2000-01-01")).body
        = .decoded "Al" "2000-01-01" ∧
      Parse "2000-01-01" = .ok ⟨2000, 1, 1⟩ ∧ Atoi "1" = .ok 1 ∧
      (validateStruct "CreateUserInput" "Al" "2000-01-01" = [] ↔
        2 ≤ "Al".length ∧ "Al".length ≤ 100) :=
  ⟨rfl, by decide, by decide,
    (name_length_validation sampleEnv
      (newCtx "POST" "/users" .createUser [] [] (.decoded "Al" "2000-01-01"))
      "Al" "2000-01-01" "1" 1 ⟨2000, 1, 1⟩ rfl (by decide) (by decide)).1⟩

/-- C5, refuted for Update: on `PUT /users/abc` a decodable body whose dob
is `2025/01/01` is answered 400 `BadRequest`, not `ValidationError`: the
handler rejects the non-numeric path id before it reads the body. -/
theorem dob_validation_skipped_bad_id :
    Atoi "abc" = .error .invalid ∧ Parse "2025/01/01" = .error .bad ∧
    (updateUser sampleEnv "abc" (newCtx "PUT" "/users/abc" (.updateUser "abc") [] []
      (.decoded "Ann" "2025/01/01"))).1.status = 400 ∧
    (updateUser sampleEnv "abc" (newCtx "PUT" "/users/abc" (.updateUser "abc") [] []
      (.decoded "Ann" "2025/01/01"))).1.payload
        = .failure ⟨"BadRequest", "Invalid user ID"⟩ := by
  refine ⟨by decide, by decide, by decide, by decide⟩

/-- C5, amended: for a decodable Create body, and a decodable Update body
sent to a numeric path id, the dob passes validation exactly when it has the
form `YYYY-MM-DD` and denotes a real calendar date; any other dob, such as
`2025/01/01`, is answered with 400 `ValidationError` and the gateway is not
called; and whenever the body passes validation the parse made afterwards
succeeds, so its discarded error is never a real one.  An Update sent to a
non-numeric path id is answered 400 `BadRequest` before the body is read,
and the gateway is not called. -/
theorem dob_validation (env : Env) (c : Ctx) (name dob idParam : String) (id : Int)
    (hbody : c.body = .decoded name dob) (hid : Atoi idParam = .ok id) :
    (dobTag dob = none ↔ ∃ t, IsoDate dob t) ∧
    ((¬ ∃ t, IsoDate dob t) →
      (createUser env c).1.status = 400 ∧ (createUser env c).1.hasCategory "ValidationError" ∧
      (createUser env c).1.calls = c.calls ∧
      (updateUser env idParam c).1.status = 400 ∧
      (updateUser env idParam c).1.hasCategory "ValidationError" ∧
      (updateUser env idParam c).1.calls = c.calls) ∧
    (¬ ∃ t, IsoDate "2025/01/01" t) ∧
    (∀ typeName, validateStruct typeName name dob = [] →
      ∃ t, IsoDate dob t ∧ Parse dob = .ok t ∧ parseIgnoringError dob = t) ∧
    (∀ (p : String) (e : NumError), Atoi p = .error e →
      (updateUser env p c).1.status = 400 ∧
      (updateUser env p c).1.payload = .failure ⟨"BadRequest", "Invalid user ID"⟩ ∧
      (updateUser env p c).1.calls = c.calls) := by
  have key : dobTag dob = none ↔ ∃ t, IsoDate dob t := by
    rw [dobTag_none_iff]
    exact ⟨fun ⟨t, h⟩ => ⟨t, (parse_ok_iff dob t).1 h⟩, fun ⟨t, h⟩ => ⟨t, (parse_ok_iff dob t).2 h⟩⟩
  refine ⟨key, fun h => ?_, ?_, fun typeName hv => ?_,
    fun p e hp => updateUser_bad_id env c p e hp⟩
  · have hc : validateStruct "CreateUserInput" name dob ≠ [] := fun h' =>
      h (key.1 ((validateStruct_nil_iff _ _ _).1 h').2)
    have hu : validateStruct "UpdateUserInput" name dob ≠ [] := fun h' =>
      h (key.1 ((validateStruct_nil_iff _ _ _).1 h').2)
    have r1 := createUser_rejects env c name dob hbody hc
    have r2 := updateUser_rejects env c idParam id name dob hid hbody hu
    exact ⟨r1.1, r1.2.1, r1.2.2, r2.1, r2.2.1, r2.2.2⟩
  · rintro ⟨t, h⟩
    have h' := (parse_ok_iff _ t).2 h
    have e : Parse "2025/01/01" = .error .bad := by decide
    rw [e] at h'
    cases h'
  · obtain ⟨t, ht⟩ := (dobTag_none_iff dob).1 ((validateStruct_nil_iff _ _ _).1 hv).2
    exact ⟨t, (parse_ok_iff dob t).1 ht, ht, parseIgnoringError_ok dob t ht⟩

/-- C5 as amended, at the body `{name: "Ann", dob: "2025/01/01"}` and the
path id `1`. -/
theorem dob_validation_witness :
    (newCtx "POST" "/users" .createUser [] [] (.decoded "Ann" "2025/01/01")).body
        = .decoded "Ann" "2025/01/01" ∧
      Atoi "1" = .ok 1 ∧
      (dobTag "2025/01/01" = none ↔ ∃ t, IsoDate "2025/01/01" t) :=
  ⟨rfl, by decide,
    (dob_validation sampleEnv
      (newCtx "POST" "/users" .createUser [] [] (.decoded "Ann" "2025/01/01"))
      "Ann" "2025/01/01" "1" 1 rfl (by decide)).1⟩

/-- C9, refuted: the names of two spaces and of ` a ` have fewer than 2
characters once trimmed, yet with a valid dob `POST /users` answers 201 and
`PUT /users/1` answers 200, and each writes the untrimmed name to the
gateway. -/
theorem trimmed_name_accepted :
    trimmedLength "  " < 2 ∧ trimmedLength " a " < 2 ∧
    (createUser sampleEnv
      (newCtx "POST" "/users" .createUser [] [] (.decoded "  " "2000-01-01"))).1.status = 201 ∧
    (createUser sampleEnv
      (newCtx "POST" "/users" .createUser [] [] (.decoded "  " "2000-01-01"))).1.calls
        = [.CreateUser "  " ⟨⟨2000, 1, 1⟩, true⟩] ∧
    (createUser sampleEnv
      (newCtx "POST" "/users" .createUser [] [] (.decoded " a " "2000-01-01"))).1.calls
        = [.CreateUser " a " ⟨⟨2000, 1, 1⟩, true⟩] ∧
    (updateUser sampleEnv "1"
      (newCtx "PUT" "/users/1" (.updateUser "1") [] [] (.decoded "  " "2000-01-01"))).1.status
        = 200 ∧
    (updateUser sampleEnv "1"
      (newCtx "PUT" "/users/1" (.updateUser "1") [] [] (.decoded "  " "2000-01-01"))).1.calls
        = [.UpdateUser 1 "  " ⟨⟨2000, 1, 1⟩, true⟩] := by
  refine ⟨by decide, by decide, by decide, by decide, by decide, by decide, by decide⟩

/-- C9, amended: Create and Update (on a numeric path id) accept a name only
if its length as sent, whitespace included and nothing trimmed, is in
[2,100]; a body whose name has fewer than 2 characters is answered with 400
`ValidationError` and nothing is written to the gateway. -/
theorem untrimmed_name_validation (env : Env) (c : Ctx) (name dob idParam : String) (id : Int)
    (hbody : c.body = .decoded name dob) (hid : Atoi idParam = .ok id) :
    ((createUser env c).1.calls ≠ c.calls → 2 ≤ name.length ∧ name.length ≤ 100) ∧
    ((updateUser env idParam c).1.calls ≠ c.calls → 2 ≤ name.length ∧ name.length ≤ 100) ∧
    (name.length < 2 →
      (createUser env c).1.status = 400 ∧ (createUser env c).1.hasCategory "ValidationError" ∧
      (createUser env c).1.calls = c.calls ∧
      (updateUser env idParam c).1.status = 400 ∧
      (updateUser env idParam c).1.hasCategory "ValidationError" ∧
      (updateUser env idParam c).1.calls = c.calls) := by
  have rej : ¬ (2 ≤ name.length ∧ name.length ≤ 100) →
      (createUser env c).1.status = 400 ∧ (createUser env c).1.hasCategory "ValidationError" ∧
      (createUser env c).1.calls = c.calls ∧
      (updateUser env idParam c).1.status = 400 ∧
      (updateUser env idParam c).1.hasCategory "ValidationError" ∧
      (updateUser env idParam c).1.calls = c.calls := fun h =>
    have hc : validateStruct "CreateUserInput" name dob ≠ [] := fun h' =>
      h ((nameTag_none_iff name).1 ((validateStruct_nil_iff _ _ _).1 h').1)
    have hu : validateStruct "UpdateUserInput" name dob ≠ [] := fun h' =>
      h ((nameTag_none_iff name).1 ((validateStruct_nil_iff _ _ _).1 h').1)
    have r1 := createUser_rejects env c name dob hbody hc
    have r2 := updateUser_rejects env c idParam id name dob hid hbody hu
    ⟨r1.1, r1.2.1, r1.2.2, r2.1, r2.2.1, r2.2.2⟩
  refine ⟨fun h => ?_, fun h => ?_, fun h => rej (by omega)⟩
  · by_contra hn; exact h (rej hn).2.2.1
  · by_contra hn; exact h (rej hn).2.2.2.2.2

/-- C9 as amended, at the body `{name: "a", dob: "2000-01-01"}`. -/
theorem untrimmed_name_validation_witness :
    (newCtx "POST" "/users" .createUser [] [] (.decoded "a" "2000-01-01")).body
        = .decoded "a" "2000-01-01" ∧
      Atoi "1" = .ok 1 ∧ "a".length < 2 ∧
      (createUser sampleEnv
        (newCtx "POST" "/users" .createUser [] [] (.decoded "a" "2000-01-01"))).1.status
          = 400 :=
  ⟨rfl, by decide, by decide,
    ((untrimmed_name_validation sampleEnv
      (newCtx "POST" "/users" .createUser [] [] (.decoded "a" "2000-01-01"))
      "a" "2000-01-01" "1" 1 rfl (by decide)).2.2 (by decide)).1⟩

/-! ## Gateway failures -/

theorem getUser_gateway_error (env : Env) (c : Ctx) (idParam : String) (id : Int) (e : String)
    (hid : Atoi idParam = .ok id) (hg : env.db.GetUserById (int32 id) = .error e) :
    (getUser env idParam c).1.status = 404 ∧
      (getUser env idParam c).1.payload = .failure ⟨"NotFound", "User not found"⟩ := by
  unfold getUser
  simp only [hid, hg]
  simp [sendErrorResponse, Ctx.JSON, Ctx.Set, Ctx.Status, Ctx.Error, Ctx.call, Ctx.Info]

theorem updateUser_gateway_error (env : Env) (c : Ctx) (idParam : String) (id : Int)
    (name dob e : String) (hid : Atoi idParam = .ok id) (hbody : c.body = .decoded name dob)
    (hv : validateStruct "UpdateUserInput" name dob = [])
    (hg : env.db.UpdateUser (int32 id) name ⟨parseIgnoringError dob, true⟩ = .error e) :
    (updateUser env idParam c).1.status = 500 ∧
      (updateUser env idParam c).1.payload
        = .failure ⟨"ServerError", "Failed to update user: " ++ e⟩ := by
  unfold updateUser
  simp only [Ctx.Info, hid, hbody, hv, ne_eq, not_true_eq_false, if_false, PgDate.Scan, hg]
  simp [sendErrorResponse, Ctx.JSON, Ctx.Set, Ctx.Status, Ctx.Error, Ctx.call]

theorem deleteUser_gateway_error (env : Env) (c : Ctx) (idParam : String) (id : Int) (e : String)
    (hid : Atoi idParam = .ok id) (hg : env.db.DeleteUser (int32 id) = .error e) :
    (deleteUser env idParam c).1.status = 500 ∧
      (deleteUser env idParam c).1.payload
        = .failure ⟨"ServerError", "Failed to delete user: " ++ e⟩ := by
  unfold deleteUser
  simp only [hid, hg]
  simp [sendErrorResponse, Ctx.JSON, Ctx.Set, Ctx.Status, Ctx.Error, Ctx.call, Ctx.Info]

theorem deleteUser_gateway_ok (env : Env) (c : Ctx) (idParam : String) (id : Int)
    (hid : Atoi idParam = .ok id) (hg : env.db.DeleteUser (int32 id) = .ok ()) :
    (deleteUser env idParam c).1.status = 204 := by
  unfold deleteUser
  simp only [hid, hg]
  simp only [Ctx.SendStatus, Ctx.Status]
  split <;> rfl

theorem updateUser_never_notFound (env : Env) (c : Ctx) (idParam : String)
    (hst : c.status = 200) :
    (updateUser env idParam c).1.status ≠ 404 ∧
      ¬ (updateUser env idParam c).1.hasCategory "NotFound" := by
  unfold updateUser Ctx.hasCategory
  simp only [Ctx.Info, PgDate.Scan]
  cases Atoi idParam with
  | error e => simp [sendErrorResponse, Ctx.JSON, Ctx.Set, Ctx.Status, Ctx.Error]
  | ok id =>
    cases c.body with
    | undecodable err => simp [sendErrorResponse, Ctx.JSON, Ctx.Set, Ctx.Status, Ctx.Error]
    | decoded name dob =>
      simp only
      by_cases hv : validateStruct "UpdateUserInput" name dob = []
      · simp only [hv, ne_eq, not_true_eq_false, if_false]
        cases env.db.UpdateUser (int32 id) name ⟨parseIgnoringError dob, true⟩ <;>
          simp [sendErrorResponse, Ctx.JSON, Ctx.Set, Ctx.Status, Ctx.Error, Ctx.call,
            Ctx.Info, hst]
      · simp only [hv, ne_eq, not_false_eq_true, if_true]
        simp [sendErrorResponse, Ctx.JSON, Ctx.Set, Ctx.Status, Ctx.Error]

theorem deleteUser_never_notFound (env : Env) (c : Ctx) (idParam : String)
    (hp : c.payload = .empty) :
    (deleteUser env idParam c).1.status ≠ 404 ∧
      ¬ (deleteUser env idParam c).1.hasCategory "NotFound" := by
  unfold deleteUser Ctx.hasCategory
  cases Atoi idParam with
  | error e => simp [sendErrorResponse, Ctx.JSON, Ctx.Set, Ctx.Status, Ctx.Error, Ctx.Info]
  | ok id =>
    simp only
    cases env.db.DeleteUser (int32 id) with
    | error e =>
      simp [sendErrorResponse, Ctx.JSON, Ctx.Set, Ctx.Status, Ctx.Error, Ctx.call, Ctx.Info]
    | ok u =>
      simp [Ctx.SendStatus, Ctx.Status, Ctx.Info, Ctx.call, Ctx.SendString, hp]

/-- C8: on a numeric id for which the gateway reports a failure,
`GET /users/:id` answers 404 with `{error: "NotFound", message: "User not
found"}`, while `PUT /users/:id` with a valid body and `DELETE /users/:id`
answer 500 `ServerError`; PUT and DELETE never answer NotFound, whatever the
request (the response being fresh, status 200 and no body, when the handler
starts); and DELETE answers 204 exactly when the gateway reports success. -/
theorem gateway_failure_status (env : Env) (c : Ctx) (idParam : String) (id : Int)
    (hid : Atoi idParam = .ok id) :
    (∀ e, env.db.GetUserById (int32 id) = .error e →
      (getUser env idParam c).1.status = 404 ∧
      (getUser env idParam c).1.payload = .failure ⟨"NotFound", "User not found"⟩) ∧
    (∀ name dob e, c.body = .decoded name dob →
      validateStruct "UpdateUserInput" name dob = [] →
      env.db.UpdateUser (int32 id) name ⟨parseIgnoringError dob, true⟩ = .error e →
      (updateUser env idParam c).1.status = 500 ∧
      (updateUser env idParam c).1.payload
        = .failure ⟨"ServerError", "Failed to update user: " ++ e⟩) ∧
    (∀ e, env.db.DeleteUser (int32 id) = .error e →
      (deleteUser env idParam c).1.status = 500 ∧
      (deleteUser env idParam c).1.payload
        = .failure ⟨"ServerError", "Failed to delete user: " ++ e⟩) ∧
    (∀ (p : String) (c' : Ctx), c'.status = 200 → c'.payload = .empty →
      (updateUser env p c').1.status ≠ 404 ∧ ¬ (updateUser env p c').1.hasCategory "NotFound" ∧
      (deleteUser env p c').1.status ≠ 404 ∧
      ¬ (deleteUser env p c').1.hasCategory "NotFound") ∧
    ((deleteUser env idParam c).1.status = 204 ↔ env.db.DeleteUser (int32 id) = .ok ()) := by
  refine ⟨fun e hg => getUser_gateway_error env c idParam id e hid hg,
    fun name dob e hb hv hg => updateUser_gateway_error env c idParam id name dob e hid hb hv hg,
    fun e hg => deleteUser_gateway_error env c idParam id e hid hg,
    fun p c' hst hp => ⟨(updateUser_never_notFound env c' p hst).1,
      (updateUser_never_notFound env c' p hst).2, (deleteUser_never_notFound env c' p hp).1,
      (deleteUser_never_notFound env c' p hp).2⟩, ?_⟩
  constructor
  · intro h
    cases hg : env.db.DeleteUser (int32 id) with
    | error e =>
      have := (deleteUser_gateway_error env c idParam id e hid hg).1
      omega
    | ok u => rfl
  · exact deleteUser_gateway_ok env c idParam id hid

/-- C8 at `GET /users/7` on a gateway that holds no user 7. -/
theorem gateway_failure_status_witness :
    Atoi "7" = .ok 7 ∧
      (getUser sampleEnv "7"
        (newCtx "GET" "/users/7" (.getUser "7") [] []
          (.undecodable "Unprocessable Entity"))).1.status = 404 :=
  ⟨by decide,
    ((gateway_failure_status sampleEnv
      (newCtx "GET" "/users/7" (.getUser "7") [] [] (.undecodable "Unprocessable Entity"))
      "7" 7 (by decide)).1 "no rows in result set" (by decide)).1⟩

/-! ## Middleware -/

theorem lookup_filter_ne (l : List (String × String)) (k key : String) (h : key ≠ k) :
    (l.filter (fun kv => kv.1 ≠ k)).lookup key = l.lookup key := by
  induction l with
  | nil => rfl
  | cons a l ih =>
    obtain ⟨a1, a2⟩ := a
    by_cases ha : a1 = k
    · subst ha
      have hk : (key == a1) = false := by simpa using h
      simpa [List.filter, List.lookup, hk] using ih
    · by_cases hka : key = a1
      · subst hka
        simp [List.filter, List.lookup, ha]
      · have hk : (key == a1) = false := by simpa using hka
        simpa [List.filter, List.lookup, ha, hk] using ih

theorem respHeader_Set_same (c : Ctx) (k v : String) : (c.Set k v).respHeader k = some v := by
  simp [Ctx.Set, Ctx.respHeader, List.lookup]

theorem respHeader_Set_ne (c : Ctx) (k v key : String) (h : key ≠ k) :
    (c.Set k v).respHeader key = c.respHeader key := by
  have hk : (key == k) = false := by simpa using h
  simp only [Ctx.Set, Ctx.respHeader, List.lookup, hk]
  exact lookup_filter_ne c.respHeaders k key h

theorem locals_setLocals_same (c : Ctx) (k v : String) : (c.setLocals k v).Locals k = some v := by
  simp [Ctx.setLocals, Ctx.Locals, List.lookup]

theorem sameTrace_refl (c : Ctx) : SameTrace c c := ⟨rfl, rfl, rfl, rfl⟩

theorem sameTrace_trans (a b c : Ctx) (h1 : SameTrace a b) (h2 : SameTrace b c) :
    SameTrace a c :=
  ⟨h2.1.trans h1.1, h2.2.1.trans h1.2.1, h2.2.2.1.trans h1.2.2.1, h2.2.2.2.trans h1.2.2.2⟩

theorem sameTrace_Info (c : Ctx) (m : String) (f : List (String × LogField)) :
    SameTrace c (c.Info m f) := ⟨rfl, rfl, rfl, rfl⟩

theorem sameTrace_Error (c : Ctx) (m : String) (f : List (String × LogField)) :
    SameTrace c (c.Error m f) := ⟨rfl, rfl, rfl, rfl⟩

theorem sameTrace_call (c : Ctx) (k : Call) : SameTrace c (c.call k) := ⟨rfl, rfl, rfl, rfl⟩

theorem sameTrace_Status (c : Ctx) (n : Nat) : SameTrace c (c.Status n) := ⟨rfl, rfl, rfl, rfl⟩

theorem sameTrace_SendString (c : Ctx) (b : String) : SameTrace c (c.SendString b) :=
  ⟨rfl, rfl, rfl, rfl⟩

theorem sameTrace_SendStatus (c : Ctx) (n : Nat) : SameTrace c (c.SendStatus n) := by
  unfold Ctx.SendStatus
  simp only
  split
  · exact ⟨rfl, rfl, rfl, rfl⟩
  · exact ⟨rfl, rfl, rfl, rfl⟩

theorem sameTrace_JSON (c : Ctx) (d : Payload) : SameTrace c (c.JSON d) := by
  refine ⟨?_, rfl, rfl, rfl⟩
  unfold Ctx.JSON
  rw [respHeader_Set_ne _ _ _ _ (by decide)]
  rfl

theorem sameTrace_sendErrorResponse (c : Ctx) (n : Nat) (t m : String) :
    SameTrace c (sendErrorResponse c n t m).1 :=
  sameTrace_trans _ _ _ (sameTrace_Status c n) (sameTrace_JSON _ _)

theorem sameTrace_logged_error (c : Ctx) (m : String) (f : List (String × LogField)) (n : Nat)
    (t msg : String) : SameTrace c (sendErrorResponse (c.Error m f) n t msg).1 :=
  sameTrace_trans _ _ _ (sameTrace_Error c m f) (sameTrace_sendErrorResponse _ _ _ _)

theorem sameTrace_getRoot (c : Ctx) : SameTrace c (getRoot c).1 := ⟨rfl, rfl, rfl, rfl⟩

theorem sameTrace_listUsers (env : Env) (c : Ctx) : SameTrace c (listUsers env c).1 := by
  unfold listUsers
  simp only
  split
  · exact sameTrace_trans _ _ _ (sameTrace_call c _) (sameTrace_logged_error _ _ _ _ _ _)
  · exact sameTrace_trans _ _ _ (sameTrace_call c _) (sameTrace_JSON _ _)

theorem sameTrace_createUser (env : Env) (c : Ctx) : SameTrace c (createUser env c).1 := by
  unfold createUser
  simp only [PgDate.Scan]
  refine sameTrace_trans _ _ _ (sameTrace_Info c "POST /users called" []) ?_
  generalize c.Info "POST /users called" [] = c1
  split
  · exact sameTrace_logged_error _ _ _ _ _ _
  · split
    · exact sameTrace_logged_error _ _ _ _ _ _
    · split
      · exact sameTrace_trans _ _ _ (sameTrace_call c1 _) (sameTrace_logged_error _ _ _ _ _ _)
      · exact sameTrace_trans _ _ _ (sameTrace_call c1 _)
          (sameTrace_trans _ _ _ (sameTrace_Info _ _ _)
            (sameTrace_trans _ _ _ (sameTrace_Status _ _) (sameTrace_JSON _ _)))

theorem sameTrace_getUser (env : Env) (idParam : String) (c : Ctx) :
    SameTrace c (getUser env idParam c).1 := by
  unfold getUser
  simp only
  refine sameTrace_trans _ _ _ (sameTrace_Info c "GET /users/:id called" [("id", .str idParam)]) ?_
  generalize c.Info "GET /users/:id called" [("id", .str idParam)] = c1
  split
  · exact sameTrace_logged_error _ _ _ _ _ _
  · split
    · exact sameTrace_trans _ _ _ (sameTrace_call c1 _) (sameTrace_logged_error _ _ _ _ _ _)
    · split
      · exact sameTrace_trans _ _ _ (sameTrace_call c1 _) (sameTrace_logged_error _ _ _ _ _ _)
      · exact sameTrace_trans _ _ _ (sameTrace_call c1 _)
          (sameTrace_trans _ _ _ (sameTrace_Info _ _ _) (sameTrace_JSON _ _))

theorem sameTrace_updateUser (env : Env) (idParam : String) (c : Ctx) :
    SameTrace c (updateUser env idParam c).1 := by
  unfold updateUser
  simp only [PgDate.Scan]
  refine sameTrace_trans _ _ _ (sameTrace_Info c "PUT /users/:id called" [("id", .str idParam)]) ?_
  generalize c.Info "PUT /users/:id called" [("id", .str idParam)] = c1
  split
  · exact sameTrace_logged_error _ _ _ _ _ _
  · split
    · exact sameTrace_logged_error _ _ _ _ _ _
    · split
      · exact sameTrace_logged_error _ _ _ _ _ _
      · split
        · exact sameTrace_trans _ _ _ (sameTrace_call c1 _) (sameTrace_logged_error _ _ _ _ _ _)
        · exact sameTrace_trans _ _ _ (sameTrace_call c1 _)
            (sameTrace_trans _ _ _ (sameTrace_Info _ _ _) (sameTrace_JSON _ _))

theorem sameTrace_deleteUser (env : Env) (idParam : String) (c : Ctx) :
    SameTrace c (deleteUser env idParam c).1 := by
  unfold deleteUser
  simp only
  refine sameTrace_trans _ _ _ (sameTrace_Info c "DELETE /users/:id called" [("id", .str idParam)]) ?_
  generalize c.Info "DELETE /users/:id called" [("id", .str idParam)] = c1
  split
  · exact sameTrace_logged_error _ _ _ _ _ _
  · split
    · exact sameTrace_trans _ _ _ (sameTrace_call c1 _) (sameTrace_logged_error _ _ _ _ _ _)
    · exact sameTrace_trans _ _ _ (sameTrace_call c1 _)
        (sameTrace_trans _ _ _ (sameTrace_Info _ _ _) (sameTrace_SendStatus _ _))

theorem sameTrace_Set_allow (c : Ctx) (v : String) : SameTrace c (c.Set "Allow" v) :=
  ⟨respHeader_Set_ne _ _ _ _ (by decide), rfl, rfl, rfl⟩

theorem sameTrace_Append (c : Ctx) (value : String) : SameTrace c (c.Append "Allow" value) := by
  unfold Ctx.Append
  simp only
  split_ifs <;> first | exact sameTrace_refl c | exact sameTrace_Set_allow c _

theorem sameTrace_allow (allow : List String) (c : Ctx) :
    SameTrace c (allow.foldl (fun c0 m => c0.Append "Allow" m) c) := by
  induction allow generalizing c with
  | nil => exact sameTrace_refl c
  | cons m ms ih =>
    exact sameTrace_trans _ _ _ (sameTrace_Append c m) (ih (c.Append "Allow" m))

theorem sameTrace_router (env : Env) (c : Ctx) : SameTrace c (router env c).1 := by
  unfold router
  split
  · exact sameTrace_getRoot c
  · exact sameTrace_listUsers env c
  · exact sameTrace_createUser env c
  · exact sameTrace_getUser env _ c
  · exact sameTrace_updateUser env _ c
  · exact sameTrace_deleteUser env _ c
  · simp only
    split <;> exact sameTrace_allow _ c

theorem loggingMiddleware_eq (env : Env) (next : Handler) (c : Ctx) :
    LoggingMiddleware env next c =
      ((next c).1.Info "Request"
        [("method", .str (next c).1.method), ("path", .str (next c).1.path),
         ("status", .int (next c).1.status),
         ("request_id", .str (match (next c).1.Locals "requestid" with
            | none => ""
            | some v => v)),
         ("duration", .duration (env.clockStop - env.clockStart))],
       (next c).2) := rfl

theorem sameTrace_defaultErrorHandler (c : Ctx) (e : FiberError) :
    SameTrace c (DefaultErrorHandler c e) := by
  refine ⟨?_, rfl, rfl, rfl⟩
  unfold DefaultErrorHandler
  simp only
  show (c.Set "Content-Type" "text/plain; charset=utf-8").respHeader "X-Request-ID" = _
  exact respHeader_Set_ne _ _ _ _ (by decide)

theorem serve_known_method (env : Env) (c : Ctx) (hm : c.method ∈ DefaultMethods) :
    serve env c = (match chain env c with
      | (c, none) => c
      | (c, some err) => DefaultErrorHandler c err) := by
  unfold serve
  exact if_neg (fun h => h hm)

/-- The token `RequestIDMiddleware` uses: the caller's, or a fresh one when
the caller sent none. -/
theorem serve_sameTrace (env : Env) (c : Ctx) (hm : c.method ∈ DefaultMethods) :
    SameTrace ((c.Set "X-Request-ID"
        (if c.Get "X-Request-ID" = "" then env.uuid else c.Get "X-Request-ID")).setLocals
          "requestid" (if c.Get "X-Request-ID" = "" then env.uuid else c.Get "X-Request-ID"))
      (serve env c) := by
  rw [serve_known_method env c hm]
  unfold chain RequestIDMiddleware
  simp only
  generalize (c.Set "X-Request-ID"
        (if c.Get "X-Request-ID" = "" then env.uuid else c.Get "X-Request-ID")).setLocals
          "requestid" (if c.Get "X-Request-ID" = "" then env.uuid else c.Get "X-Request-ID") = c1
  rw [loggingMiddleware_eq]
  have h1 := sameTrace_router env c1
  have h2 := sameTrace_Info (router env c1).1 "Request"
    [("method", .str (router env c1).1.method), ("path", .str (router env c1).1.path),
     ("status", .int (router env c1).1.status),
     ("request_id", .str (match (router env c1).1.Locals "requestid" with
        | none => ""
        | some v => v)),
     ("duration", .duration (env.clockStop - env.clockStart))]
  cases h : (router env c1).2 with
  | none => exact sameTrace_trans _ _ _ h1 h2
  | some e =>
    exact sameTrace_trans _ _ _ h1 (sameTrace_trans _ _ _ h2 (sameTrace_defaultErrorHandler _ e))

theorem serve_unknown_method (env : Env) (c : Ctx) (h : c.method ∉ DefaultMethods) :
    serve env c = (c.Status 400).SendString "Invalid http method" := by
  unfold serve
  rw [if_pos h]

/-- C6, refuted: the request `FOO /nope` carries `X-Request-ID: abc`, yet
the response has no `X-Request-ID` header and no `requestid` was stored:
fiber answers a method it does not know with 400 `Invalid http method`
before `RequestIDMiddleware` or any other handler runs. -/
theorem requestID_dropped_unknown_method :
    (newCtx "FOO" "/nope" (.unmatched []) [("X-Request-ID", "abc")] []
      (.undecodable "Unprocessable Entity")).Get "X-Request-ID" = "abc" ∧
    (serve sampleEnv (newCtx "FOO" "/nope" (.unmatched []) [("X-Request-ID", "abc")] []
      (.undecodable "Unprocessable Entity"))).respHeader "X-Request-ID" = none ∧
    (serve sampleEnv (newCtx "FOO" "/nope" (.unmatched []) [("X-Request-ID", "abc")] []
      (.undecodable "Unprocessable Entity"))).Locals "requestid" = none ∧
    (serve sampleEnv (newCtx "FOO" "/nope" (.unmatched []) [("X-Request-ID", "abc")] []
      (.undecodable "Unprocessable Entity"))).status = 400 ∧
    (serve sampleEnv (newCtx "FOO" "/nope" (.unmatched []) [("X-Request-ID", "abc")] []
      (.undecodable "Unprocessable Entity"))).payload = .text "Invalid http method" := by
  refine ⟨by decide, by decide, by decide, by decide, by decide⟩

/-- C6, amended: when a request with a method fiber knows carries an
`X-Request-ID` value `v`, `RequestIDMiddleware` sets the response header
`X-Request-ID` to `v` and stores `v` under `requestid` before it runs the
rest of the chain, and hands back whatever the chain returns; the response
the application sends carries `v`, whether the chain succeeded or failed; a
fresh token is generated, and used for both, only when no value is supplied.
A request with a method fiber does not know is answered 400 before the
middleware runs. -/
theorem requestID_echo (env : Env) (next : Handler) (c : Ctx) (v : String)
    (hv : c.Get "X-Request-ID" = v) (hne : v ≠ "") (hm : c.method ∈ DefaultMethods) :
    RequestIDMiddleware env next c
        = next ((c.Set "X-Request-ID" v).setLocals "requestid" v) ∧
    ((c.Set "X-Request-ID" v).setLocals "requestid" v).respHeader "X-Request-ID" = some v ∧
    ((c.Set "X-Request-ID" v).setLocals "requestid" v).Locals "requestid" = some v ∧
    (serve env c).respHeader "X-Request-ID" = some v ∧
    (serve env c).Locals "requestid" = some v ∧
    (∀ c0 : Ctx, c0.Get "X-Request-ID" = "" →
      RequestIDMiddleware env next c0
        = next ((c0.Set "X-Request-ID" env.uuid).setLocals "requestid" env.uuid)) ∧
    (∀ c0 : Ctx, c0.method ∉ DefaultMethods →
      serve env c0 = (c0.Status 400).SendString "Invalid http method") := by
  have e1 : ((c.Set "X-Request-ID" v).setLocals "requestid" v).respHeader "X-Request-ID"
      = some v := respHeader_Set_same c _ v
  have e2 : ((c.Set "X-Request-ID" v).setLocals "requestid" v).Locals "requestid" = some v :=
    locals_setLocals_same _ _ v
  have hs := serve_sameTrace env c hm
  rw [hv, if_neg hne] at hs
  refine ⟨?_, e1, e2, hs.1.trans e1, ?_, ?_, fun c0 h0 => serve_unknown_method env c0 h0⟩
  · simp only [RequestIDMiddleware, hv, if_neg hne]
  · unfold Ctx.Locals at e2 ⊢
    rw [hs.2.1]; exact e2
  · intro c0 h0
    simp only [RequestIDMiddleware, h0, if_true]

/-- C6 as amended, at `GET /nope` sent with `X-Request-ID: abc`. -/
theorem requestID_echo_witness :
    (newCtx "GET" "/nope" (.unmatched []) [("X-Request-ID", "abc")] []
        (.undecodable "Unprocessable Entity")).Get "X-Request-ID" = "abc" ∧
      "abc" ≠ "" ∧ "GET" ∈ DefaultMethods ∧
      (serve sampleEnv (newCtx "GET" "/nope" (.unmatched []) [("X-Request-ID", "abc")] []
        (.undecodable "Unprocessable Entity"))).respHeader "X-Request-ID" = some "abc" :=
  ⟨by decide, by decide, by decide,
    (requestID_echo sampleEnv (router sampleEnv)
      (newCtx "GET" "/nope" (.unmatched []) [("X-Request-ID", "abc")] []
        (.undecodable "Unprocessable Entity")) "abc" (by decide) (by decide)
      (by decide)).2.2.2.1⟩

/-- What `LoggingMiddleware` does around any downstream `next`: it returns
the downstream error unchanged and appends exactly one record to what the
downstream logged, carrying the method, the path, the status the context
holds at that moment, the `requestid` local, and the elapsed time, which is
not negative on a monotonic clock. -/
theorem loggingMiddleware_record (env : Env) (next : Handler) (c : Ctx)
    (hclock : env.clockStart ≤ env.clockStop) :
    (LoggingMiddleware env next c).2 = (next c).2 ∧
    ∃ d : Int, 0 ≤ d ∧
      (LoggingMiddleware env next c).1 = (next c).1.Info "Request"
        [("method", .str (next c).1.method), ("path", .str (next c).1.path),
         ("status", .int (next c).1.status),
         ("request_id", .str (match (next c).1.Locals "requestid" with
            | none => ""
            | some v => v)),
         ("duration", .duration d)] := by
  rw [loggingMiddleware_eq]
  exact ⟨rfl, env.clockStop - env.clockStart, by omega, rfl⟩

/-- When the chain returns no error, the status `LoggingMiddleware` recorded
is the status of the response sent. -/
theorem logged_status_on_success (env : Env) (c : Ctx) (hm : c.method ∈ DefaultMethods)
    (h : (chain env c).2 = none) :
    ∃ pre fields, (serve env c).logs = pre ++ [⟨.info, "Request", fields⟩] ∧
      fields.lookup "status" = some (.int (serve env c).status) := by
  rw [serve_known_method env c hm]
  have hc : chain env c = ((chain env c).1, none) := by rw [← h]
  rw [hc]
  simp only
  unfold chain RequestIDMiddleware
  simp only
  rw [loggingMiddleware_eq]
  exact ⟨_, _, rfl, by simp [List.lookup, Ctx.Info]⟩

/-- C7, at the failing input: for `GET /nope`, which matches no route, the
chain returns fiber's 404 error; `LoggingMiddleware` has by then written its
one record with status 200, and the response sent has status 404. -/
theorem logged_status_mismatch :
    (chain sampleEnv (newCtx "GET" "/nope" (.unmatched []) [("X-Request-ID", "abc")] []
      (.undecodable "Unprocessable Entity"))).2 = some ⟨404, "Cannot GET /nope"⟩ ∧
    (serve sampleEnv (newCtx "GET" "/nope" (.unmatched []) [("X-Request-ID", "abc")] []
      (.undecodable "Unprocessable Entity"))).logs
      = [⟨.info, "Request",
          [("method", .str "GET"), ("path", .str "/nope"), ("status", .int 200),
           ("request_id", .str "abc"), ("duration", .duration 150)]⟩] ∧
    (serve sampleEnv (newCtx "GET" "/nope" (.unmatched []) [("X-Request-ID", "abc")] []
      (.undecodable "Unprocessable Entity"))).status = 404 := by
  refine ⟨by decide, by decide, by decide⟩

end GoBackendTask
